import Mathlib

/-!
# GPS bridge utilities (`gps_utils.go`): shallow embedding

Embedding of `src/tcp_udp_http_bridge_go/gps_utils.go`.

Modelling conventions.

* A Go `string` is a Lean `String` (a sequence of Unicode scalar values, i.e. valid UTF-8
  text).  Byte-level views of a string (`len`, `[]byte(s)`, `url.QueryEscape`) go through the
  UTF-8 encoding of its characters.
* A Go `error` is `Option String` (`none` is `nil`, `some m` is `errors.New(m)`).
* A run-time panic (index out of range, `regexp.MustCompile` on a bad pattern) is the outer
  `none` of an `Option` result.
* Go `int` constants and the entries of `Order` / `Units` are `Int`.
* The standard-library float operations (`strconv.ParseFloat`, `float64` arithmetic and the
  float verbs of `fmt`) are a parameter `FloatLib`; the concrete instance `goFloat` evaluates
  them on plain decimal literals.
* The `regexp` package is a parameter `RegexpLib` for the patterns of the device table, which
  are arbitrary configuration strings; the fixed pattern of `analyseHTTPResponse` is given
  as a regular-expression tree run by a backtracking matcher with Go's leftmost-first
  priorities.
* Logging (`logger.Print`, `isVerbose`) has no effect on the results and is left out.
-/

namespace GpsUtils

/-! ## Enumeration constants (`const ( NONE int = iota ... )`) -/

def NONE : Int := 0
def DEVID : Int := 1
def DEVIMEI : Int := 2
def GPRMC : Int := 3
def TIME : Int := 4
def ACTIVE : Int := 5
def LAT : Int := 6
def LON : Int := 7
def NS : Int := 8
def EW : Int := 9
def SPEED : Int := 10
def ANGLE : Int := 11
def DATE : Int := 12
def ALT : Int := 13
def ACC : Int := 14
def DEGMIN : Int := 15
def KMPERH : Int := 16
def MPERS : Int := 17
def KNOTS : Int := 18
def DEGREE : Int := 19
def HEAD : Int := 20
def CHECK : Int := 21
def MAGN : Int := 22

/-! ## Data model -/

/-- Regular expressions describing a message and the response (`type ReqRespPat struct`).
`MsgRegexp = none` is the Go `nil` pointer. -/
structure ReqRespPat (R : Type) where
  Msg : String
  Resp : String
  MsgRegexp : Option R

/-- Device description (`type devPattern struct`). -/
structure devPattern (R : Type) where
  Device : String
  Login : ReqRespPat R
  Heartbeat : ReqRespPat R
  Gps_data : ReqRespPat R
  Order : List Int
  Units : List Int

/-! ## Standard-library string functions -/

/-- The UTF-8 encoding of a character. -/
def utf8 (c : Char) : List Nat :=
  let v := c.toNat
  if v < 128 then [v]
  else if v < 2048 then [192 + v / 64, 128 + v % 64]
  else if v < 65536 then [224 + v / 4096, 128 + v / 64 % 64, 128 + v % 64]
  else [240 + v / 262144, 128 + v / 4096 % 64, 128 + v / 64 % 64, 128 + v % 64]

/-- The bytes of a string, `[]byte(s)`: the UTF-8 encoding of its characters. -/
def bytes (s : String) : List Nat := s.data.flatMap utf8

/-- Go `len(s)` of a string: its number of bytes. -/
def len (s : String) : Nat := (bytes s).length

/-- Upper-case hexadecimal digit (`"0123456789ABCDEF"[n]`). -/
def upperhex (n : Nat) : Char := "0123456789ABCDEF".data.getD n '0'

/-- Lower-case hexadecimal digit (`"0123456789abcdef"[n]`). -/
def lowerhex (n : Nat) : Char := "0123456789abcdef".data.getD n '0'

/-- Go `net/url.shouldEscape(c, encodeQueryComponent)`: everything but ASCII letters, digits
and `-`, `_`, `.`, `~` is escaped. -/
def shouldEscape (b : Nat) : Bool :=
  !((97 ≤ b && b ≤ 122) || (65 ≤ b && b ≤ 90) || (48 ≤ b && b ≤ 57)
    || b == 45 || b == 95 || b == 46 || b == 126)

/-- One byte of `url.QueryEscape`: a space becomes `+`, an escaped byte `%XX`. -/
def escapeByte (b : Nat) : List Char :=
  if shouldEscape b then
    if b = 32 then ['+'] else ['%', upperhex (b / 16), upperhex (b % 16)]
  else [Char.ofNat b]

/-- Go `url.QueryEscape`. -/
def url.QueryEscape (s : String) : String := ⟨(bytes s).flatMap escapeByte⟩

/-- One rune of `strconv.QuoteToASCII` (`appendEscapedRune` with quote `"` and
`ASCIIonly`). -/
def quoteRune (c : Char) : List Char :=
  let r := c.toNat
  if r = 34 ∨ r = 92 then ['\\', c]
  else if 32 ≤ r ∧ r < 127 then [c]
  else if r = 7 then ['\\', 'a']
  else if r = 8 then ['\\', 'b']
  else if r = 12 then ['\\', 'f']
  else if r = 10 then ['\\', 'n']
  else if r = 13 then ['\\', 'r']
  else if r = 9 then ['\\', 't']
  else if r = 11 then ['\\', 'v']
  else if r < 32 ∨ r = 127 then ['\\', 'x', lowerhex (r / 16 % 16), lowerhex (r % 16)]
  else if r < 65536 then
    ['\\', 'u', lowerhex (r / 4096 % 16), lowerhex (r / 256 % 16), lowerhex (r / 16 % 16),
      lowerhex (r % 16)]
  else
    ['\\', 'U', lowerhex (r / 268435456 % 16), lowerhex (r / 16777216 % 16),
      lowerhex (r / 1048576 % 16), lowerhex (r / 65536 % 16), lowerhex (r / 4096 % 16),
      lowerhex (r / 256 % 16), lowerhex (r / 16 % 16), lowerhex (r % 16)]

/-- Go `strconv.QuoteToASCII`: the string as a double-quoted Go literal in ASCII. -/
def strconv.QuoteToASCII (s : String) : String :=
  ⟨'"' :: s.data.flatMap quoteRune ++ ['"']⟩

/-- Go `fmt.Sprintf("%6s", val)`: padded on the left with spaces to 6 runes. -/
def Sprintf_6s (val : String) : String :=
  ⟨List.replicate (6 - val.length) ' ' ++ val.data⟩

/-- Go `fmt.Sprintf("%02X", cs)` for a `byte`. -/
def Sprintf_02X (cs : Nat) : String :=
  ⟨[upperhex (cs % 256 / 16), upperhex (cs % 16)]⟩

/-! ## Standard-library float functions -/

/-- The float operations `getGPSValue` uses, over a carrier `F` for `float64`. -/
structure FloatLib (F : Type) where
  /-- The call `strconv.ParseFloat(s, 32)`: `none` when the returned `err` is not `nil`. -/
  ParseFloat : String → Option F
  /-- The conversion `float64(int(x))`. -/
  truncate : F → F
  /-- The difference `x - y`. -/
  sub : F → F → F
  /-- The product `x * y`. -/
  mul : F → F → F
  /-- The quotient `x / y`. -/
  div : F → F → F
  /-- The call `math.Abs(x)`. -/
  Abs : F → F
  /-- The comparison `x < 0.0`. -/
  ltZero : F → Bool
  /-- The constant `60.0`. -/
  c60 : F
  /-- The constant `1.852`. -/
  c1_852 : F
  /-- The constant expression `3.6/1.852`. -/
  c3_6_div_1_852 : F
  /-- The verb `%v` of `fmt` on a `float64`, under the width `wid` with the `0` flag. -/
  fmtV : (wid : Nat) → F → String
  /-- The verb `%f` of `fmt` with precision `prec`, under the width `wid` with the `0` flag
  (`wid = 0`: no width). -/
  fmtF : (wid : Nat) → (prec : Nat) → F → String

/-- Go `fmt.Sprintf("%0<wid>d%05.2f", a, b)` with `float64` arguments `a` and `b`.  The verb
`%d` does not apply to a `float64`: `fmt` writes `%!d(float64=<a as %v>)` for it, keeping
the width and the `0` flag. -/
def Sprintf_d_f {F : Type} (L : FloatLib F) (wid : Nat) (a b : F) : String :=
  "%!d(float64=" ++ L.fmtV wid a ++ ")" ++ L.fmtF 5 2 b

/-! ## `getGPSValue` -/

/-- The search loop `for i=0; i<len(dev.Order) && dev.Order[i]!=key; i++` of `getGPSValue`:
the first position of `key` in `Order`, or `len(Order)`. -/
def orderIndex (Order : List Int) (key : Int) : Nat :=
  match Order with
  | [] => 0
  | k :: ks => if k ≠ key then orderIndex ks key + 1 else 0

/-- Go `getGPSValue(dev, matches, key) (val string, idx int)`; `none` is the
index-out-of-range panic of `dev.Units[i]`. -/
def getGPSValue {F R : Type} (L : FloatLib F) (dev : devPattern R) (matches_ : List String)
    (key : Int) : Option (String × Int) :=
  let i := orderIndex dev.Order key
  if i < dev.Order.length ∧ dev.Order[i]? = some key ∧ matches_.length > i + 1 then
    let val := matches_.getD (i + 1) ""
    if key = TIME ∨ key = DATE then
      some (Sprintf_6s val, 0)
    else if key = ACTIVE then
      some (val, 0)
    else if key = LAT ∨ key = LON then
      match dev.Units[i]? with
      | none => none
      | some u =>
        if u = DEGMIN then some (val, 0)
        else
          match L.ParseFloat val with
          | none => some (val, 0)
          | some degval =>
            if u = DEGREE then
              let deg := L.truncate degval
              let min := L.mul (L.sub degval deg) L.c60
              some (Sprintf_d_f L (if key = LON then 3 else 2) (L.Abs deg) min, 0)
            else some (val, 0)
    else if key = SPEED then
      match L.ParseFloat val with
      | none => some (val, 0)
      | some v =>
        match dev.Units[i]? with
        | none => none
        | some u =>
          let v := if u = KMPERH then L.div v L.c1_852 else v
          let v := if u = MPERS then L.mul v L.c3_6_div_1_852 else v
          some (L.fmtF 0 1 v, 0)
    else some (val, 0)
  else
    if key = NS then
      match getGPSValue L dev matches_ LAT with
      | none => none
      | some (_, idx) =>
        if idx > 0 ∧ idx < matches_.length then
          match L.ParseFloat (matches_.getD idx.toNat "") with
          | some degval => if L.ltZero degval then some ("S", idx) else some ("N", idx)
          | none => some ("N", idx)
        else some ("N", idx)
    else if key = EW then
      match getGPSValue L dev matches_ LON with
      | none => none
      | some (_, idx) =>
        if idx > 0 ∧ idx < matches_.length then
          match L.ParseFloat (matches_.getD idx.toNat "") with
          | some degval => if L.ltZero degval then some ("W", idx) else some ("E", idx)
          | none => some ("E", idx)
        else some ("E", idx)
    else if key = ACTIVE then some ("A", 0)
    else if key = DEVIMEI ∨ key = DEVID then some ("", 0)
    else some ("0.0", 0)
termination_by (if key = NS ∨ key = EW then 1 else 0)
decreasing_by
  · simp_all [LAT, NS, EW]
  · simp_all [LON, NS, EW]

/-! ## `createGPRMCQuery` -/

/-- GPRMC format digested by the openGTS server (`var gprmcOrder`). -/
def gprmcOrder : List Int := [HEAD, TIME, ACTIVE, LAT, NS, LON, EW, SPEED, ANGLE, DATE, MAGN]

/-- The loop `for i:=0; !isGPRMC && i<len(dev.Order); i++ { isGPRMC=dev.Order[i]==GPRMC }`. -/
def isGPRMC (Order : List Int) : Bool :=
  match Order with
  | [] => false
  | k :: ks => if k = GPRMC then true else isGPRMC ks

/-- The loop over `gprmcOrder` of the assembled mode, from position `ks` on, with the query
built so far. -/
def assemble {F R : Type} (L : FloatLib F) (dev : devPattern R) (matches_ : List String)
    (ks : List Int) (query : String) : Option String :=
  match ks with
  | [] => some query
  | k :: rest =>
    if k = HEAD then assemble L dev matches_ rest (query ++ "$GPRMC")
    else if k = MAGN then assemble L dev matches_ rest (query ++ ",0.0,W")
    else
      match getGPSValue L dev matches_ k with
      | none => none
      | some (val, _) =>
        assemble L dev matches_ rest
          (if len val > 0 then query ++ "," ++ url.QueryEscape val else query ++ ",")

/-- The checksum loop `for _,c := range []byte(q) { if c!='$' && c!='*' { cs ^= c }}` on a
`byte` accumulator starting at `cs`. -/
def xorBytes (cs : Nat) (bs : List Nat) : Nat :=
  match bs with
  | [] => cs
  | c :: rest => xorBytes (if c ≠ 36 ∧ c ≠ 42 then (cs ^^^ c) % 256 else cs) rest

/-- The single-byte GPRMC checksum of `createGPRMCQuery`, taken over
`[]byte(strconv.QuoteToASCII(query))`. -/
def checksum (query : String) : Nat := xorBytes 0 (bytes (strconv.QuoteToASCII query))

/-- One of the four lines `if val,_=getGPSValue(dev,matches,KEY); len(val)>0
{ query = "name="+url.QueryEscape(val)+"&"+query }`. -/
def prepend {F R : Type} (L : FloatLib F) (dev : devPattern R) (matches_ : List String)
    (key : Int) (name : String) (query : String) : Option String :=
  match getGPSValue L dev matches_ key with
  | none => none
  | some (val, _) =>
    some (if len val > 0 then name ++ "=" ++ url.QueryEscape val ++ "&" ++ query else query)

/-- The first half of `createGPRMCQuery`: the sentence before the checksum, either the
captured GPRMC record with header and dummy magnetic deviation, or the assembled one. -/
def buildSentence {F R : Type} (L : FloatLib F) (dev : devPattern R)
    (matches_ : List String) : Option String :=
  if isGPRMC dev.Order then
    match getGPSValue L dev matches_ GPRMC with
    | none => none
    | some (val, _) => some (if len val > 0 then "" ++ ("$GPRMC," ++ val ++ ",0.0,W") else "")
  else assemble L dev matches_ gprmcOrder ""

/-- Go `createGPRMCQuery(dev, matches) (query string, err error)`; the outer `none` is a
panic inside `getGPSValue`. -/
def createGPRMCQuery {F R : Type} (L : FloatLib F) (dev : devPattern R)
    (matches_ : List String) : Option (String × Option String) :=
  if matches_.length < 2 then some ("", none)
  else
    match buildSentence L dev matches_ with
    | none => none
    | some query =>
      if len query > 0 then
        let query := query ++ ",A*"
        let cs := checksum query
        let query := query ++ Sprintf_02X cs
        let query := "gprmc=" ++ query
        match prepend L dev matches_ DEVID "id" query with
        | none => none
        | some query =>
          match prepend L dev matches_ DEVIMEI "imei" query with
          | none => none
          | some query =>
            match prepend L dev matches_ ALT "alt" query with
            | none => none
            | some query =>
              match prepend L dev matches_ ACC "acc" query with
              | none => none
              | some query => some (query, none)
      else some (query, none)

/-! ## The float operations on decimal literals

`goFloat` evaluates the float operations exactly (IEEE 754 round-to-nearest-even) on finite
values.  It covers the literals `[+-]digits[.digits][e[+-]digits]`; the spellings of
infinities and NaN, hexadecimal floats and the sign of a zero are outside it, as is `%v` on a
value that is not an integer below `2^53` (`getGPSValue` only prints a truncated value with
`%v`).  Statements about every capture list are made over an arbitrary `FloatLib`. -/

/-- A finite binary float, `m * 2^e`. -/
structure Dyadic where
  m : Int
  e : Int

/-- The integer `⌊log2 n⌋` of a positive `n`, by halving (at most `fuel` times). -/
def log2Nat (fuel n : Nat) : Nat :=
  match fuel with
  | 0 => 0
  | f + 1 => if n ≥ 2 then log2Nat f (n / 2) + 1 else 0

/-- The integer `⌊log2 (n/d)⌋` for positive `n` and `d`. -/
def floorLog2 (n d : Nat) : Int :=
  let k : Int := (log2Nat n n : Int) - (log2Nat d d : Int)
  if (if k ≥ 0 then d * 2 ^ k.toNat ≤ n else d ≤ n * 2 ^ (-k).toNat) then k else k - 1

/-- The integer nearest to `n/d`, ties to even. -/
def roundHalfEven (n d : Nat) : Nat :=
  let q := n / d
  let r := n % d
  if 2 * r < d then q else if 2 * r > d then q + 1 else if q % 2 = 0 then q else q + 1

/-- The fraction `±n/d` rounded to `prec` significant bits, the last bit no finer than
`2^emin`. -/
def roundBinary (prec : Nat) (emin : Int) (neg : Bool) (n d : Nat) : Dyadic :=
  if n = 0 then ⟨0, 0⟩
  else
    let ue := max (floorLog2 n d - ((prec : Int) - 1)) emin
    let mant :=
      if ue ≥ 0 then roundHalfEven n (d * 2 ^ ue.toNat)
      else roundHalfEven (n * 2 ^ (-ue).toNat) d
    ⟨if neg then -(mant : Int) else (mant : Int), ue⟩

/-- Rounding to `float64`. -/
def round64 (neg : Bool) (n d : Nat) : Dyadic := roundBinary 53 (-1074) neg n d

/-- Rounding to `float32`. -/
def round32 (neg : Bool) (n d : Nat) : Dyadic := roundBinary 24 (-149) neg n d

/-- Numerator of the magnitude of a float as a fraction. -/
def Dyadic.num (x : Dyadic) : Nat :=
  if x.e ≥ 0 then x.m.natAbs * 2 ^ x.e.toNat else x.m.natAbs

/-- Denominator of the magnitude of a float as a fraction. -/
def Dyadic.den (x : Dyadic) : Nat :=
  if x.e ≥ 0 then 1 else 2 ^ (-x.e).toNat

/-- The value of a digit string in base ten. -/
def digitsValue (ds : List Char) : Nat :=
  ds.foldl (fun acc c => 10 * acc + (c.toNat - 48)) 0

/-- Whether every character is a decimal digit. -/
def allDigits (ds : List Char) : Bool := ds.all Char.isDigit

/-- Splits a literal at its exponent marker `e` or `E`. -/
def splitExp (cs : List Char) : List Char × Option (List Char) :=
  match cs with
  | [] => ([], none)
  | c :: rest =>
    if c = 'e' ∨ c = 'E' then ([], some rest)
    else let r := splitExp rest; (c :: r.1, r.2)

/-- Splits a mantissa at its decimal point. -/
def splitDot (cs : List Char) : List Char × Option (List Char) :=
  match cs with
  | [] => ([], none)
  | c :: rest =>
    if c = '.' then ([], some rest)
    else let r := splitDot rest; (c :: r.1, r.2)

/-- Removes a leading sign; the flag tells whether it was `-`. -/
def splitSign (cs : List Char) : Bool × List Char :=
  match cs with
  | '-' :: rest => (true, rest)
  | '+' :: rest => (false, rest)
  | _ => (false, cs)

/-- Decimal exponent of a literal: `some 0` without exponent part, `none` when malformed. -/
def parseExp (ex : Option (List Char)) : Option Int :=
  match ex with
  | none => some 0
  | some cs =>
    let sg := splitSign cs
    if sg.2 ≠ [] ∧ allDigits sg.2 then
      some (if sg.1 then -(digitsValue sg.2 : Int) else (digitsValue sg.2 : Int))
    else none

/-- Go `strconv.ParseFloat(s, 32)` on decimal literals: the nearest `float32`, `none` for a
syntax error or a value out of range. -/
def parseFloat32 (s : String) : Option Dyadic :=
  let sg := splitSign s.data
  let me := splitExp sg.2
  let ip := splitDot me.1
  let fr := ip.2.getD []
  if (ip.1 ≠ [] ∨ fr ≠ []) ∧ allDigits ip.1 ∧ allDigits fr then
    match parseExp me.2 with
    | none => none
    | some ex =>
      let mant := digitsValue (ip.1 ++ fr)
      let sc : Int := ex - fr.length
      let r :=
        if sc ≥ 0 then round32 sg.1 (mant * 10 ^ sc.toNat) 1
        else round32 sg.1 mant (10 ^ (-sc).toNat)
      if r.num ≥ 2 ^ 128 * r.den then none else some r
  else none

/-- The conversion `float64(int(x))`: truncation toward zero; a magnitude of `2^63` or more
converts to the smallest `int` (the result on amd64). -/
def Dyadic.truncate (x : Dyadic) : Dyadic :=
  let t := x.num / x.den
  if t ≥ 2 ^ 63 then ⟨-(2 ^ 63), 0⟩ else round64 (decide (x.m < 0)) t 1

/-- The difference `x - y` in `float64`. -/
def Dyadic.sub (x y : Dyadic) : Dyadic :=
  let e := min x.e y.e
  let d : Int := x.m * 2 ^ (x.e - e).toNat - y.m * 2 ^ (y.e - e).toNat
  if e ≥ 0 then round64 (decide (d < 0)) (d.natAbs * 2 ^ e.toNat) 1
  else round64 (decide (d < 0)) d.natAbs (2 ^ (-e).toNat)

/-- The product `x * y` in `float64`. -/
def Dyadic.mul (x y : Dyadic) : Dyadic :=
  round64 (decide (x.m * y.m < 0)) (x.num * y.num) (x.den * y.den)

/-- The quotient `x / y` in `float64`, for `y` other than zero. -/
def Dyadic.div (x y : Dyadic) : Dyadic :=
  round64 (decide (x.m * y.m < 0)) (x.num * y.den) (x.den * y.num)

/-- Pads a number with zeros on the left (after its sign) to the width `wid`. -/
def zeroPad (wid : Nat) (neg : Bool) (body : List Char) : String :=
  let signLen := if neg then 1 else 0
  ⟨(if neg then ['-'] else []) ++ List.replicate (wid - (signLen + body.length)) '0' ++ body⟩

/-- The verb `%0<wid>.<prec>f`: the exact value rounded to `prec` decimals, ties to even. -/
def Dyadic.fmtF (wid prec : Nat) (x : Dyadic) : String :=
  let scaled := roundHalfEven (x.num * 10 ^ prec) x.den
  let ip := (Nat.repr (scaled / 10 ^ prec)).data
  let fr := (Nat.repr (scaled % 10 ^ prec)).data
  let frac := List.replicate (prec - fr.length) '0' ++ fr
  zeroPad wid (decide (x.m < 0)) (if prec = 0 then ip else ip ++ '.' :: frac)

/-- Removes the trailing zeros of a digit string. -/
def stripZeros (ds : List Char) : List Char :=
  (ds.reverse.dropWhile (fun c => c = '0')).reverse

/-- The verb `%v` (shortest `%g`, exponent form from `1e+06` on) on an integer value. -/
def Dyadic.fmtV (wid : Nat) (x : Dyadic) : String :=
  let n := x.num / x.den
  let ds := (Nat.repr n).data
  let ex := ds.length - 1
  if ex < 6 then zeroPad wid (decide (x.m < 0)) ds
  else
    let sig := stripZeros ds
    let exs := (Nat.repr ex).data
    let body := sig.take 1 ++ (if sig.length > 1 then '.' :: sig.drop 1 else [])
      ++ ['e', '+'] ++ List.replicate (2 - exs.length) '0' ++ exs
    zeroPad wid (decide (x.m < 0)) body

/-- The float operations of Go on finite values. -/
def goFloat : FloatLib Dyadic where
  ParseFloat := parseFloat32
  truncate := Dyadic.truncate
  sub := Dyadic.sub
  mul := Dyadic.mul
  div := Dyadic.div
  Abs := fun x => ⟨x.m.natAbs, x.e⟩
  ltZero := fun x => decide (x.m < 0)
  c60 := ⟨60, 0⟩
  c1_852 := round64 false 1852 1000
  c3_6_div_1_852 := round64 false 3600 1852
  fmtV := Dyadic.fmtV
  fmtF := Dyadic.fmtF

/-! ## The `regexp` package -/

/-- The operations of `regexp` that `filter_gps_device` uses, over a carrier `R` for
`*regexp.Regexp`. -/
structure RegexpLib (R : Type) where
  /-- The call `regexp.MustCompile(pattern)`: `none` when it panics. -/
  MustCompile : String → Option R
  /-- The method `re.FindStringSubmatch(s)`: the whole match followed by the groups, the
  empty list for the `nil` slice of a failed match. -/
  FindStringSubmatch : R → String → List String

/-- A regular expression: the constructs of the patterns in this file. -/
inductive Re where
  | eps : Re
  | cls (p : Char → Bool) : Re
  | bol : Re
  | eol : Re
  | seq (a b : Re) : Re
  | alt (a b : Re) : Re
  | star (a : Re) : Re
  | group (n : Nat) (a : Re) : Re

/-- A thread of the matcher: the position reached, the text left and the groups closed so
far as `(group, start, end)`, latest first. -/
structure MState where
  pos : Nat
  rest : List Char
  caps : List (Nat × Nat × Nat)

/-- The greedy loop of `a*`: the threads of one more round (which must consume text) come
before the thread that stops. -/
def starLoop (step : MState → List MState) (fuel : Nat) (st : MState) : List MState :=
  match fuel with
  | 0 => [st]
  | n + 1 => ((step st).filter (fun t => st.pos < t.pos)).flatMap (starLoop step n) ++ [st]

/-- All the ways an expression matches at a thread, in the priority order of Go's
leftmost-first matching. -/
def Re.run (r : Re) (st : MState) : List MState :=
  match r with
  | .eps => [st]
  | .cls p =>
    match st.rest with
    | [] => []
    | c :: cs => if p c then [⟨st.pos + 1, cs, st.caps⟩] else []
  | .bol => if st.pos = 0 then [st] else []
  | .eol => if st.rest.isEmpty then [st] else []
  | .seq a b => (a.run st).flatMap (fun t => b.run t)
  | .alt a b => a.run st ++ b.run st
  | .star a => starLoop (fun t => a.run t) (st.rest.length + 1) st
  | .group n a => (a.run st).map (fun t => ⟨t.pos, t.rest, (n, st.pos, t.pos) :: t.caps⟩)

/-- The number of the last group of an expression. -/
def Re.groups (r : Re) : Nat :=
  match r with
  | .seq a b => max a.groups b.groups
  | .alt a b => max a.groups b.groups
  | .star a => a.groups
  | .group n a => max n a.groups
  | _ => 0

/-- The text of group `n` in a finished thread (empty when the group took no part). -/
def groupText (s : List Char) (caps : List (Nat × Nat × Nat)) (n : Nat) : String :=
  match caps.find? (fun c => c.1 = n) with
  | some (_, b, e) => ⟨(s.drop b).take (e - b)⟩
  | none => ""

/-- The result of `FindStringSubmatch` for a finished thread that started at `pos`: the
whole match, then the groups. -/
def submatch (r : Re) (s : List Char) (pos : Nat) (t : MState) : List String :=
  (⟨(s.drop pos).take (t.pos - pos)⟩ : String)
    :: (List.range r.groups).map (fun n => groupText s t.caps (n + 1))

/-- The search of `FindStringSubmatch` from the start position `pos` on: the first thread
of the leftmost start that matches. -/
def findFrom (r : Re) (s : List Char) (pos : Nat) (rest : List Char) : List String :=
  match r.run ⟨pos, rest, []⟩ with
  | t :: _ => submatch r s pos t
  | [] =>
    match rest with
    | [] => []
    | _ :: cs => findFrom r s (pos + 1) cs

/-- The method `FindStringSubmatch` of the matcher. -/
def Re.FindStringSubmatch (r : Re) (s : String) : List String := findFrom r s.data 0 s.data

/-- A literal text. -/
def Re.lit (s : String) : Re :=
  s.data.foldr (fun c r => Re.seq (Re.cls (fun x => x = c)) r) Re.eps

/-- The repetition `a+`. -/
def Re.plus (a : Re) : Re := Re.seq a (Re.star a)

/-- The repetition `a{n}`. -/
def Re.rep (n : Nat) (a : Re) : Re :=
  match n with
  | 0 => Re.eps
  | k + 1 => Re.seq a (Re.rep k a)

/-- A sequence of expressions. -/
def Re.cat (rs : List Re) : Re := rs.foldr Re.seq Re.eps

/-- The class `\s` of Go: `[\t\n\f\r ]`. -/
def Re.space : Re := Re.cls (fun c => c = '\t' ∨ c = '\n' ∨ c.toNat = 12 ∨ c = '\r' ∨ c = ' ')

/-- The class `[0-9A-Za-z]`. -/
def Re.alnum : Re := Re.cls (fun c => c.isDigit ∨ c.isUpper ∨ c.isLower)

/-- The class `\w`: `[0-9A-Za-z_]`. -/
def Re.word : Re := Re.cls (fun c => c.isDigit ∨ c.isUpper ∨ c.isLower ∨ c = '_')

/-- The class `[0-9]` (`\d`). -/
def Re.digit : Re := Re.cls (fun c => c.isDigit)

/-- The class `[0-9.]`. -/
def Re.digitDot : Re := Re.cls (fun c => c.isDigit ∨ c = '.')

/-- A class given by the list of its characters, such as `[A|V]`. -/
def Re.oneOf (s : String) : Re := Re.cls (fun c => s.data.contains c)

/-- The class `.`: every character but the newline. -/
def Re.any : Re := Re.cls (fun c => c ≠ '\n')

/-! ## `analyseHTTPResponse` -/

/-- The expected response from the web server, `device-ID/IMEI OK|REJECTED`:
`regexp.MustCompile("^\\s*[0-9A-Za-z]+\\s+(OK|REJECTED)\\s*")`. -/
def regexpHTTPResponse : Re :=
  Re.cat [Re.bol, Re.star Re.space, Re.plus Re.alnum, Re.plus Re.space,
    Re.group 1 (Re.alt (Re.lit "OK") (Re.lit "REJECTED")), Re.star Re.space]

/-- Go `analyseHTTPResponse(response) (ans string, err error)`. -/
def analyseHTTPResponse (response : String) : String × Option String :=
  let ans := "no valid response - check connection to HTTP server"
  let err := some ans
  if response ≠ "" then
    let matchedStrings := regexpHTTPResponse.FindStringSubmatch response
    if matchedStrings.length > 1 then
      let ans := "device " ++ matchedStrings.getD 1 ""
      if matchedStrings.getD 1 "" = "OK" then (ans, none) else (ans, err)
    else (ans, err)
  else (ans, err)

/-! ## `filter_gps_device` -/

/-- The variables of `filter_gps_device` that its loop writes. -/
structure ScanState where
  id : Nat
  isLogin : Bool
  isHeart : Bool
  isData : Bool
  response : String
  matchedStrings : List String

/-- One of the three blocks `if len(p.Msg)>0 { ... }` of the loop body, up to its test
`nmatch > 2`: the new value of `matchedStrings` and whether the block breaks out of the
loop; `none` is the panic of `regexp.MustCompile`. -/
def tryPattern {R : Type} (X : RegexpLib R) (p : ReqRespPat R) (msg : String)
    (matchedStrings : List String) : Option (List String × Bool) :=
  if len p.Msg > 0 then
    let compiled := match p.MsgRegexp with
      | none => X.MustCompile p.Msg
      | some re => some re
    match compiled with
    | none => none
    | some re =>
      let matchedStrings := X.FindStringSubmatch re msg
      some (matchedStrings, decide (matchedStrings.length > 2))
  else some (matchedStrings, false)

/-- The loop `for i:=0; i<len(devs); i++ { ... }` of `filter_gps_device` over the devices
from index `i` on. -/
def scanDevices {R : Type} (X : RegexpLib R) (msg : String) (rest : List (devPattern R))
    (i : Nat) (st : ScanState) : Option ScanState :=
  match rest with
  | [] => some st
  | dev :: more =>
    let st := { st with id := i }
    match tryPattern X dev.Login msg st.matchedStrings with
    | none => none
    | some (m, true) =>
      some { st with matchedStrings := m, isLogin := true, response := dev.Login.Resp }
    | some (m, false) =>
      match tryPattern X dev.Heartbeat msg m with
      | none => none
      | some (m, true) =>
        some { st with matchedStrings := m, isHeart := true, response := dev.Heartbeat.Resp }
      | some (m, false) =>
        match tryPattern X dev.Gps_data msg m with
        | none => none
        | some (m, true) =>
          some { st with matchedStrings := m, isData := true, response := dev.Gps_data.Resp }
        | some (m, false) => scanDevices X msg more (i + 1) { st with matchedStrings := m }

/-- Go `filter_gps_device(msg) (response string, query string, err error)` over the global
device list `devs`; the outer `none` is a panic. -/
def filter_gps_device {F R : Type} (X : RegexpLib R) (L : FloatLib F)
    (devs : List (devPattern R)) (msg : String) : Option (String × String × Option String) :=
  match scanDevices X msg devs 0 ⟨0, false, false, false, "", []⟩ with
  | none => none
  | some st =>
    if st.isLogin then some (st.response, "", none)
    else if st.isHeart then some (st.response, "", none)
    else if st.isData then
      match devs[st.id]? with
      | none => none
      | some dev =>
        match createGPRMCQuery L dev st.matchedStrings with
        | none => none
        | some (query, err) => some (st.response, query, err)
    else some (st.response, "", some "Unknown Device")

/-! ## The built-in device table -/

/-- The constant `REGEXP_GPRMC`: the GPRMC record without header, magnetic deviation and
checksum. -/
def REGEXP_GPRMC : String :=
  "([0-9]{6},[A|V]*,[0-9.]+,[N|S],[0-9.]+,[E|W],[0-9.]+,[0-9.]+,[0-9]{6})"

/-- The matcher of `REGEXP_GPRMC`, as group `n`. -/
def reGPRMC (n : Nat) : Re :=
  Re.group n (Re.cat [Re.rep 6 Re.digit, Re.lit ",", Re.star (Re.oneOf "A|V"), Re.lit ",",
    Re.plus Re.digitDot, Re.lit ",", Re.oneOf "N|S", Re.lit ",", Re.plus Re.digitDot,
    Re.lit ",", Re.oneOf "E|W", Re.lit ",", Re.plus Re.digitDot, Re.lit ",",
    Re.plus Re.digitDot, Re.lit ",", Re.rep 6 Re.digit])

/-- The heartbeat pattern of the TK103B-H02. -/
def msgHeartbeatTK103 : String := "^\\*\\w{2},(\\d{15}),XT,[V|A]*,([0-9]+),([0-9]+)#\\s*$"

/-- The data pattern of the TK103B-H02. -/
def msgDataTK103 : String := "^\\*\\w{2},([0-9]{15}),V1," ++ REGEXP_GPRMC ++ ",.*$"

/-- The data pattern of the GPS logger. -/
def msgDataLogger : String := "^\\w+\\/(\\w+)\\/\\$GPRMC," ++ REGEXP_GPRMC ++ ",.*$"

/-- The matcher of `msgHeartbeatTK103`. -/
def reHeartbeatTK103 : Re :=
  Re.cat [Re.bol, Re.lit "*", Re.rep 2 Re.word, Re.lit ",", Re.group 1 (Re.rep 15 Re.digit),
    Re.lit ",XT,", Re.star (Re.oneOf "V|A"), Re.lit ",", Re.group 2 (Re.plus Re.digit),
    Re.lit ",", Re.group 3 (Re.plus Re.digit), Re.lit "#", Re.star Re.space, Re.eol]

/-- The matcher of `msgDataTK103`. -/
def reDataTK103 : Re :=
  Re.cat [Re.bol, Re.lit "*", Re.rep 2 Re.word, Re.lit ",", Re.group 1 (Re.rep 15 Re.digit),
    Re.lit ",V1,", reGPRMC 2, Re.lit ",", Re.star Re.any, Re.eol]

/-- The matcher of `msgDataLogger`. -/
def reDataLogger : Re :=
  Re.cat [Re.bol, Re.plus Re.word, Re.lit "/", Re.group 1 (Re.plus Re.word), Re.lit "/",
    Re.lit "$GPRMC,", reGPRMC 2, Re.lit ",", Re.star Re.any, Re.eol]

/-- The `regexp` package on the patterns of this file: `MustCompile` knows the patterns of
the built-in device table, `FindStringSubmatch` runs the matcher. -/
def goRegexp : RegexpLib Re where
  MustCompile := fun pattern =>
    if pattern = msgHeartbeatTK103 then some reHeartbeatTK103
    else if pattern = msgDataTK103 then some reDataTK103
    else if pattern = msgDataLogger then some reDataLogger
    else none
  FindStringSubmatch := Re.FindStringSubmatch

/-- The built-in device table `var devices = []devPattern { ... }`. -/
def devices : List (devPattern Re) :=
  [ { Device := "TK103B-H02",
      Login := ⟨"", "", none⟩,
      Heartbeat := ⟨msgHeartbeatTK103, "", none⟩,
      Gps_data := ⟨msgDataTK103, "", none⟩,
      Order := [DEVIMEI, GPRMC],
      Units := [NONE, NONE] },
    { Device := "GPS Logger (UDP)",
      Login := ⟨"", "", none⟩,
      Heartbeat := ⟨"", "", none⟩,
      Gps_data := ⟨msgDataLogger, "", none⟩,
      Order := [DEVID, GPRMC],
      Units := [NONE, NONE] } ]

/-! ## Notions used to state the properties -/

/-- The captured text of a tag: the group at the first position of `key` in `Order`, when
`Order` contains `key` and the capture list reaches that group. -/
def captured {R : Type} (dev : devPattern R) (matches_ : List String) (key : Int) :
    Option String :=
  if key ∈ dev.Order then matches_[orderIndex dev.Order key + 1]? else none

/-- The value `getGPSValue` extracts for a tag (the empty string if it panics). -/
def auxValue {F R : Type} (L : FloatLib F) (dev : devPattern R) (matches_ : List String)
    (key : Int) : String :=
  match getGPSValue L dev matches_ key with
  | some (val, _) => val
  | none => ""

/-- A query parameter `name=value&` with the value URL-escaped; nothing for an empty value. -/
def param (name val : String) : String :=
  if len val > 0 then name ++ "=" ++ url.QueryEscape val ++ "&" else ""

/-- The exclusive or of all the bytes of a list. -/
def xorAll (bs : List Nat) : Nat :=
  match bs with
  | [] => 0
  | b :: rest => b ^^^ xorAll rest

/-- A printable ASCII character other than `$`, `*`, the double quote and the backslash. -/
def plainChar (c : Char) : Bool :=
  decide (32 ≤ c.toNat) && decide (c.toNat < 127) && c.toNat != 36 && c.toNat != 42
    && c.toNat != 34 && c.toNat != 92

/-- The three kinds of message of a device. -/
inductive Kind where
  | Login : Kind
  | Heartbeat : Kind
  | Gps_data : Kind
  deriving DecidableEq

/-- The order in which the kinds are tried: Login, Heartbeat, Gps_data. -/
def Kind.rank (k : Kind) : Nat :=
  match k with
  | .Login => 0
  | .Heartbeat => 1
  | .Gps_data => 2

/-- The pattern of a device for a kind of message. -/
def devPattern.pat {R : Type} (dev : devPattern R) (k : Kind) : ReqRespPat R :=
  match k with
  | .Login => dev.Login
  | .Heartbeat => dev.Heartbeat
  | .Gps_data => dev.Gps_data

/-- The matcher of a pattern: the stored one, else the one `regexp.MustCompile` makes from
`Msg`. -/
def matcher {R : Type} (X : RegexpLib R) (p : ReqRespPat R) : Option R :=
  match p.MsgRegexp with
  | none => X.MustCompile p.Msg
  | some re => some re

/-- The groups (whole match included) a pattern yields on a line; none without a matcher. -/
def groupsOf {R : Type} (X : RegexpLib R) (p : ReqRespPat R) (msg : String) : List String :=
  match matcher X p with
  | none => []
  | some re => X.FindStringSubmatch re msg

/-- A pattern accepts a line: it is not empty and yields more than 2 groups. -/
def accepts {R : Type} (X : RegexpLib R) (p : ReqRespPat R) (msg : String) : Prop :=
  len p.Msg > 0 ∧ (groupsOf X p msg).length > 2

instance {R : Type} (X : RegexpLib R) (p : ReqRespPat R) (msg : String) :
    Decidable (accepts X p msg) := by
  unfold accepts
  exact inferInstance

/-- Every non-empty pattern of the device list has a matcher (stored, or its `Msg`
compiles). -/
def compiles {R : Type} (X : RegexpLib R) (devs : List (devPattern R)) : Prop :=
  ∀ dev ∈ devs, ∀ k : Kind, len (dev.pat k).Msg > 0 → (matcher X (dev.pat k)).isSome

/-- A device given by its field order and units alone (no patterns). -/
def orderOnly (Order Units : List Int) : devPattern Re :=
  ⟨"", ⟨"", "", none⟩, ⟨"", "", none⟩, ⟨"", "", none⟩, Order, Units⟩

/-- The variables of `filter_gps_device` after the loop has broken out at device `i` on a
pattern of kind `k` with the groups `ms`. -/
def hitState {R : Type} (i : Nat) (dev : devPattern R) (k : Kind) (ms : List String) :
    ScanState :=
  match k with
  | .Login => ⟨i, true, false, false, dev.Login.Resp, ms⟩
  | .Heartbeat => ⟨i, false, true, false, dev.Heartbeat.Resp, ms⟩
  | .Gps_data => ⟨i, false, false, true, dev.Gps_data.Resp, ms⟩

/-- A pattern with two groups around the letters `a` and `b`: `^(a)(b)`. -/
def reAB : Re := Re.cat [Re.bol, Re.group 1 (Re.lit "a"), Re.group 2 (Re.lit "b")]

/-- A device that takes the line `ab` as a heartbeat, answered with `ON`. -/
def firstDev : devPattern Re :=
  { Device := "first",
    Login := ⟨"", "", none⟩,
    Heartbeat := ⟨"^(a)(b)", "ON", some reAB⟩,
    Gps_data := ⟨"", "", none⟩,
    Order := [DEVID],
    Units := [NONE] }

/-- A device that takes the line `ab` as data. -/
def secondDev : devPattern Re :=
  { Device := "second",
    Login := ⟨"", "", none⟩,
    Heartbeat := ⟨"", "", none⟩,
    Gps_data := ⟨"^(a)(b)", "", some reAB⟩,
    Order := [DEVID, GPRMC],
    Units := [NONE, NONE] }

/-- Two devices for the same line: the first takes it as a heartbeat, the second as data. -/
def shadowDevs : List (devPattern Re) := [firstDev, secondDev]

/-- The result of `filter_gps_device` for a line that device `dev` accepts as kind `k` with
the groups `ms`: the response of that kind, and a query for data only. -/
def resultAt {F R : Type} (L : FloatLib F) (dev : devPattern R) (k : Kind)
    (ms : List String) : Option (String × String × Option String) :=
  match k with
  | .Login => some (dev.Login.Resp, "", none)
  | .Heartbeat => some (dev.Heartbeat.Resp, "", none)
  | .Gps_data => (createGPRMCQuery L dev ms).map (fun r => (dev.Gps_data.Resp, r.1, r.2))

/-- The position of a captured tag lies beyond `Units`: the access `dev.Units[i]` for it is
out of range. -/
def unitsShort {R : Type} (dev : devPattern R) (matches_ : List String) (key : Int) : Prop :=
  (captured dev matches_ key).isSome ∧ dev.Units.length ≤ orderIndex dev.Order key

/-- The calls of `getGPSValue` that read `dev.Units[i]` at a position beyond `Units`: a
captured LAT or LON, a captured SPEED whose text parses, and the default of NS (EW), which
asks for LAT (LON). -/
def unitsOutOfRange {F R : Type} (L : FloatLib F) (dev : devPattern R)
    (matches_ : List String) (key : Int) : Prop :=
  ((key = LAT ∨ key = LON) ∧ unitsShort dev matches_ key) ∨
  (key = SPEED ∧ unitsShort dev matches_ SPEED ∧
    ∃ v, captured dev matches_ SPEED = some v ∧ (L.ParseFloat v).isSome) ∨
  (key = NS ∧ captured dev matches_ NS = none ∧ unitsShort dev matches_ LAT) ∨
  (key = EW ∧ captured dev matches_ EW = none ∧ unitsShort dev matches_ LON)

/-- An upper-case hexadecimal digit. -/
def isUpperHex (c : Char) : Bool := "0123456789ABCDEF".data.contains c

/-- The fields of a text between its commas. -/
def splitComma (cs : List Char) : List (List Char) :=
  match cs with
  | [] => [[]]
  | c :: rest =>
    if c = ',' then [] :: splitComma rest
    else
      match splitComma rest with
      | [] => [[c]]
      | f :: fs => (c :: f) :: fs

/-- The text one slot of `gprmcOrder` after the header adds to the sentence: the dummy
magnetic deviation for MAGN, else a comma and the URL-escaped extracted value. -/
def piece {F R : Type} (L : FloatLib F) (dev : devPattern R) (matches_ : List String)
    (k : Int) : String :=
  if k = MAGN then ",0.0,W" else "," ++ url.QueryEscape (auxValue L dev matches_ k)

/-- The text the slots `ks` add to the sentence, in order. -/
def fieldsText {F R : Type} (L : FloatLib F) (dev : devPattern R) (matches_ : List String)
    (ks : List Int) : String :=
  match ks with
  | [] => ""
  | k :: rest => piece L dev matches_ k ++ fieldsText L dev matches_ rest

/-- A character of a URL-escaped text: an ASCII letter or digit or one of `-`, `_`, `.`, `~`,
and `%` and `+`, which the escaping itself adds. -/
def escapedChar (c : Char) : Bool := c.isAlphanum || "-_.~%+".data.contains c

/-- The sentence of a query before `,A*` and the checksum: in passthrough mode (`Order`
holds GPRMC) the header, the captured GPRMC text as it is (the default `0.0` when the
capture list does not reach it) and the dummy magnetic deviation; in assembled mode the
header and one piece for each slot of `gprmcOrder` after it. -/
def sentenceText {F R : Type} (L : FloatLib F) (dev : devPattern R) (matches_ : List String) :
    String :=
  if isGPRMC dev.Order then "$GPRMC," ++ (captured dev matches_ GPRMC).getD "0.0" ++ ",0.0,W"
  else "$GPRMC" ++ fieldsText L dev matches_
    [TIME, ACTIVE, LAT, NS, LON, EW, SPEED, ANGLE, DATE, MAGN]

theorem utf8_ne_nil (c : Char) : utf8 c ≠ [] := by
  unfold utf8
  simp only
  split_ifs <;> simp

theorem len_pos_iff (s : String) : len s > 0 ↔ s ≠ "" := by
  obtain ⟨l⟩ := s
  cases l with
  | nil => simp [len, bytes]
  | cons c cs =>
    have h := utf8_ne_nil c
    have h2 : ¬ (String.mk (c :: cs) = "") := by
      intro e
      have := congrArg String.data e
      simp at this
    simp only [len, bytes, List.flatMap_cons, List.length_append, gt_iff_lt, ne_eq, h2,
      not_false_eq_true, iff_true]
    have : 0 < (utf8 c).length := List.length_pos.mpr h
    omega

theorem empty_append (s : String) : "" ++ s = s := by
  apply String.ext
  simp

/-! ## Lemmas on `getGPSValue` -/

theorem orderIndex_lt_iff (O : List Int) (k : Int) : orderIndex O k < O.length ↔ k ∈ O := by
  induction O with
  | nil => simp [orderIndex]
  | cons a as ih =>
    by_cases h : a = k
    · simp [orderIndex, h]
    · have h2 : ¬ k = a := fun e => h e.symm
      simp [orderIndex, h, h2, ih]

theorem orderIndex_get (O : List Int) (k : Int) (h : k ∈ O) : O[orderIndex O k]? = some k := by
  induction O with
  | nil => simp at h
  | cons a as ih =>
    by_cases h1 : a = k
    · simp [orderIndex, h1]
    · have h2 : ¬ k = a := fun e => h1 e.symm
      have h3 : k ∈ as := by simpa [h2] using h
      simp [orderIndex, h1, ih h3]

theorem found_iff {R : Type} (dev : devPattern R) (m : List String) (key : Int) :
    (orderIndex dev.Order key < dev.Order.length ∧
      dev.Order[orderIndex dev.Order key]? = some key ∧
      m.length > orderIndex dev.Order key + 1) ↔
    captured dev m key = some (m.getD (orderIndex dev.Order key + 1) "") := by
  unfold captured
  by_cases h : key ∈ dev.Order
  · have h1 := (orderIndex_lt_iff dev.Order key).mpr h
    have h2 := orderIndex_get dev.Order key h
    simp only [h, h1, h2, true_and, if_true]
    constructor
    · intro h3
      simp [List.getD, List.getElem?_eq_getElem h3]
    · intro h3
      by_contra h4
      simp [List.getElem?_eq_none (Nat.le_of_not_lt h4)] at h3
  · have h1 : ¬ orderIndex dev.Order key < dev.Order.length :=
      fun e => h ((orderIndex_lt_iff dev.Order key).mp e)
    simp [h, h1]

theorem captured_eq_some {R : Type} (dev : devPattern R) (m : List String) (key : Int)
    (v : String) (h : captured dev m key = some v) :
    v = m.getD (orderIndex dev.Order key + 1) "" := by
  unfold captured at h
  split at h
  · simp [List.getD, h]
  · simp at h

theorem not_found_iff {R : Type} (dev : devPattern R) (m : List String) (key : Int) :
    ¬ (orderIndex dev.Order key < dev.Order.length ∧
      dev.Order[orderIndex dev.Order key]? = some key ∧
      m.length > orderIndex dev.Order key + 1) ↔ captured dev m key = none := by
  constructor
  · intro hc
    cases hcap : captured dev m key with
    | none => rfl
    | some v =>
      exfalso; apply hc
      have := captured_eq_some dev m key v hcap
      exact (found_iff dev m key).mpr (by rw [hcap, this])
  · intro hn hc
    rw [(found_iff dev m key).mp hc] at hn
    simp at hn

/-- A tag without conversion nor hemisphere default: the captured text, else the default. -/
theorem getGPSValue_plain {F R : Type} (L : FloatLib F) (dev : devPattern R) (m : List String)
    (key : Int) (h1 : key ≠ TIME) (h2 : key ≠ DATE) (h3 : key ≠ ACTIVE) (h4 : key ≠ LAT)
    (h5 : key ≠ LON) (h6 : key ≠ SPEED) (h7 : key ≠ NS) (h8 : key ≠ EW) :
    getGPSValue L dev m key =
      some ((captured dev m key).getD (if key = DEVIMEI ∨ key = DEVID then "" else "0.0"), 0) := by
  rw [getGPSValue]
  by_cases hc : (orderIndex dev.Order key < dev.Order.length ∧
      dev.Order[orderIndex dev.Order key]? = some key ∧
      m.length > orderIndex dev.Order key + 1)
  · have hc2 := (found_iff dev m key).mp hc
    simp only [hc, and_self, if_true, h1, h2, h3, h4, h5, h6, or_self, if_false, hc2,
      Option.getD_some]
  · have hc2 := (not_found_iff dev m key).mp hc
    simp only [hc, if_false, h7, h8, h3, hc2, Option.getD_none]
    by_cases hk : key = DEVIMEI ∨ key = DEVID <;> simp [hk]

theorem getGPSValue_ACC {F R : Type} (L : FloatLib F) (dev : devPattern R) (m : List String) :
    getGPSValue L dev m ACC = some ((captured dev m ACC).getD "0.0", 0) := by
  rw [getGPSValue_plain L dev m ACC (by decide) (by decide) (by decide) (by decide) (by decide)
    (by decide) (by decide) (by decide)]
  simp [ACC, DEVIMEI, DEVID]

theorem getGPSValue_ALT {F R : Type} (L : FloatLib F) (dev : devPattern R) (m : List String) :
    getGPSValue L dev m ALT = some ((captured dev m ALT).getD "0.0", 0) := by
  rw [getGPSValue_plain L dev m ALT (by decide) (by decide) (by decide) (by decide) (by decide)
    (by decide) (by decide) (by decide)]
  simp [ALT, DEVIMEI, DEVID]

theorem getGPSValue_DEVIMEI {F R : Type} (L : FloatLib F) (dev : devPattern R)
    (m : List String) :
    getGPSValue L dev m DEVIMEI = some ((captured dev m DEVIMEI).getD "", 0) := by
  rw [getGPSValue_plain L dev m DEVIMEI (by decide) (by decide) (by decide) (by decide)
    (by decide) (by decide) (by decide) (by decide)]
  simp

theorem getGPSValue_DEVID {F R : Type} (L : FloatLib F) (dev : devPattern R) (m : List String) :
    getGPSValue L dev m DEVID = some ((captured dev m DEVID).getD "", 0) := by
  rw [getGPSValue_plain L dev m DEVID (by decide) (by decide) (by decide) (by decide)
    (by decide) (by decide) (by decide) (by decide)]
  simp

theorem getGPSValue_GPRMC {F R : Type} (L : FloatLib F) (dev : devPattern R) (m : List String) :
    getGPSValue L dev m GPRMC = some ((captured dev m GPRMC).getD "0.0", 0) := by
  rw [getGPSValue_plain L dev m GPRMC (by decide) (by decide) (by decide) (by decide)
    (by decide) (by decide) (by decide) (by decide)]
  simp [GPRMC, DEVIMEI, DEVID]

/-! ## Lemmas on `createGPRMCQuery` -/

theorem prepend_eq {F R : Type} (L : FloatLib F) (dev : devPattern R) (m : List String)
    (key : Int) (name query : String) (v : String × Int)
    (h : getGPSValue L dev m key = some v) :
    prepend L dev m key name query = some (param name (auxValue L dev m key) ++ query) := by
  unfold prepend auxValue param
  rw [h]
  by_cases hl : len v.1 > 0
  · simp [hl]
  · simp [hl, empty_append]

/-- The four parameters in front of `gprmc=`, left to right. -/
theorem createGPRMCQuery_eq {F R : Type} (L : FloatLib F) (dev : devPattern R)
    (m : List String) :
    createGPRMCQuery L dev m =
      if m.length < 2 then some ("", none)
      else
        match buildSentence L dev m with
        | none => none
        | some s =>
          if s ≠ "" then
            some (param "acc" (auxValue L dev m ACC) ++ (param "alt" (auxValue L dev m ALT) ++
              (param "imei" (auxValue L dev m DEVIMEI) ++ (param "id" (auxValue L dev m DEVID) ++
              ("gprmc=" ++ (s ++ ",A*" ++ Sprintf_02X (checksum (s ++ ",A*"))))))), none)
          else some ("", none) := by
  unfold createGPRMCQuery
  by_cases h2 : m.length < 2
  · simp [h2]
  · simp only [h2, if_false]
    cases hs : buildSentence L dev m with
    | none => rfl
    | some s =>
      simp only
      by_cases hl : len s > 0
      · have hne : s ≠ "" := (len_pos_iff s).mp hl
        simp only [hl, if_true, hne, ne_eq, not_false_eq_true]
        rw [prepend_eq L dev m DEVID _ _ _ (getGPSValue_DEVID L dev m)]
        simp only
        rw [prepend_eq L dev m DEVIMEI _ _ _ (getGPSValue_DEVIMEI L dev m)]
        simp only
        rw [prepend_eq L dev m ALT _ _ _ (getGPSValue_ALT L dev m)]
        simp only
        rw [prepend_eq L dev m ACC _ _ _ (getGPSValue_ACC L dev m)]
      · have he : s = "" := by
          by_contra hne
          exact hl ((len_pos_iff s).mpr hne)
        subst he
        simp only [hl, if_false]
        simp


theorem upperhex_plain (n : Nat) : plainChar (upperhex n) = true := by
  by_cases h : n < 16
  · interval_cases n <;> decide
  · have h2 : 16 ≤ n := Nat.le_of_not_lt h
    have : upperhex n = '0' := by
      unfold upperhex
      rw [List.getD_eq_default]
      simpa using h2
    rw [this]; decide

theorem shouldEscape_small : ∀ b < 128, shouldEscape b = false → plainChar (Char.ofNat b) = true := by
  decide!

theorem shouldEscape_large (b : Nat) (h : 128 ≤ b) : shouldEscape b = true := by
  unfold shouldEscape
  simp
  omega

theorem escapeByte_plain (b : Nat) : ∀ c ∈ escapeByte b, plainChar c = true := by
  intro c hc
  unfold escapeByte at hc
  by_cases hs : shouldEscape b = true
  · simp only [hs, if_true] at hc
    by_cases h32 : b = 32
    · simp only [h32, if_true, List.mem_singleton] at hc
      subst hc; decide
    · simp only [h32, if_false, List.mem_cons, List.mem_singleton, List.mem_nil_iff, or_false] at hc
      rcases hc with h | h | h
      · subst h; decide
      · subst h; exact upperhex_plain _
      · subst h; exact upperhex_plain _
  · have hs2 : shouldEscape b = false := by simpa using hs
    have hb : b < 128 := by
      by_contra hge
      have := shouldEscape_large b (Nat.le_of_not_lt hge)
      rw [this] at hs2
      exact absurd hs2 (by simp)
    simp only [hs2, Bool.false_eq_true, if_false, List.mem_singleton] at hc
    subst hc
    exact shouldEscape_small b hb hs2

theorem QueryEscape_plain (v : String) : ∀ c ∈ (url.QueryEscape v).data, plainChar c = true := by
  intro c hc
  unfold url.QueryEscape at hc
  simp only [List.mem_flatMap] at hc
  obtain ⟨b, _, hb⟩ := hc
  exact escapeByte_plain b c hb


theorem assemble_plain {F R : Type} (L : FloatLib F) (dev : devPattern R) (m : List String)
    (ks : List Int) (hk : HEAD ∉ ks) (q s : String) (h : assemble L dev m ks q = some s) :
    ∃ t : String, s = q ++ t ∧ ∀ c ∈ t.data, plainChar c = true := by
  induction ks generalizing q with
  | nil =>
    refine ⟨"", ?_, by simp⟩
    simp only [assemble, Option.some.injEq] at h
    rw [← h]
    apply String.ext; simp
  | cons k rest ih =>
    have hk1 : k ≠ HEAD := fun e => hk (by simp [e])
    have hk2 : HEAD ∉ rest := fun e => hk (by simp [e])
    rw [assemble] at h
    simp only [hk1, if_false] at h
    by_cases hm : k = MAGN
    · simp only [hm, if_true] at h
      obtain ⟨t, ht, hp⟩ := ih hk2 _ h
      refine ⟨",0.0,W" ++ t, ?_, ?_⟩
      · rw [ht]; apply String.ext; simp
      · intro c hc
        simp only [String.data_append, List.mem_append] at hc
        rcases hc with hc | hc
        · revert c; decide
        · exact hp c hc
    · simp only [hm, if_false] at h
      cases hg : getGPSValue L dev m k with
      | none => simp [hg] at h
      | some v =>
        simp only [hg] at h
        obtain ⟨t, ht, hp⟩ := ih hk2 _ h
        by_cases hl : len v.1 > 0
        · simp only [hl, if_true] at ht
          refine ⟨"," ++ url.QueryEscape v.1 ++ t, ?_, ?_⟩
          · rw [ht]; apply String.ext; simp
          · intro c hc
            simp only [String.data_append, List.mem_append] at hc
            rcases hc with (hc | hc) | hc
            · revert c; decide
            · exact QueryEscape_plain _ c hc
            · exact hp c hc
        · simp only [hl, if_false] at ht
          refine ⟨"," ++ t, ?_, ?_⟩
          · rw [ht]; apply String.ext; simp
          · intro c hc
            simp only [String.data_append, List.mem_append] at hc
            rcases hc with hc | hc
            · revert c; decide
            · exact hp c hc

/-- A non-empty sentence starts with `$`; an assembled one goes on with plain characters. -/
theorem buildSentence_shape {F R : Type} (L : FloatLib F) (dev : devPattern R)
    (m : List String) (s : String) (h : buildSentence L dev m = some s) (hne : s ≠ "") :
    ∃ b : String, s = "$" ++ b ∧ (isGPRMC dev.Order = false → ∀ c ∈ b.data, plainChar c = true) := by
  unfold buildSentence at h
  by_cases hg : isGPRMC dev.Order = true
  · simp only [hg, if_true, getGPSValue_GPRMC] at h
    by_cases hl : len ((captured dev m GPRMC).getD "0.0") > 0
    · simp only [hl, if_true, Option.some.injEq] at h
      refine ⟨"GPRMC," ++ (captured dev m GPRMC).getD "0.0" ++ ",0.0,W", ?_, by simp [hg]⟩
      rw [← h]; apply String.ext; simp
    · simp only [hl, if_false, Option.some.injEq] at h
      exact absurd h.symm hne
  · simp only [hg, Bool.false_eq_true, if_false] at h
    rw [gprmcOrder, assemble] at h
    simp only [if_true] at h
    obtain ⟨t, ht, hp⟩ := assemble_plain L dev m _ (by decide) _ s h
    refine ⟨"GPRMC" ++ t, ?_, ?_⟩
    · rw [ht]; apply String.ext; simp
    · intro _ c hc
      simp only [String.data_append, List.mem_append] at hc
      rcases hc with hc | hc
      · revert c; decide
      · exact hp c hc


theorem plainChar_bounds (c : Char) (h : plainChar c = true) :
    32 ≤ c.toNat ∧ c.toNat < 127 ∧ c.toNat ≠ 36 ∧ c.toNat ≠ 42 ∧ c.toNat ≠ 34 ∧ c.toNat ≠ 92 := by
  unfold plainChar at h
  simp only [Bool.and_eq_true, decide_eq_true_eq, bne_iff_ne, ne_eq] at h
  obtain ⟨⟨⟨⟨⟨h1, h2⟩, h3⟩, h4⟩, h5⟩, h6⟩ := h
  exact ⟨h1, h2, h3, h4, h5, h6⟩

theorem quoteRune_plain (c : Char) (h : plainChar c = true) : quoteRune c = [c] := by
  obtain ⟨h1, h2, _, _, h5, h6⟩ := plainChar_bounds c h
  unfold quoteRune
  simp [h1, h2, h5, h6]

theorem utf8_plain (c : Char) (h : plainChar c = true) : utf8 c = [c.toNat] := by
  obtain ⟨_, h2, _⟩ := plainChar_bounds c h
  unfold utf8
  have : c.toNat < 128 := by omega
  simp [this]

theorem flatMap_quoteRune_plain (l : List Char) (h : ∀ c ∈ l, plainChar c = true) :
    l.flatMap quoteRune = l := by
  induction l with
  | nil => rfl
  | cons a as ih =>
    have ha := quoteRune_plain a (h a (by simp))
    have hr := ih (fun c hc => h c (by simp [hc]))
    simp [List.flatMap_cons, ha, hr]

theorem flatMap_utf8_plain (l : List Char) (h : ∀ c ∈ l, plainChar c = true) :
    l.flatMap utf8 = l.map Char.toNat := by
  induction l with
  | nil => rfl
  | cons a as ih =>
    have ha := utf8_plain a (h a (by simp))
    have hr := ih (fun c hc => h c (by simp [hc]))
    simp [List.flatMap_cons, ha, hr]

theorem xorAll_lt (l : List Char) (h : ∀ c ∈ l, plainChar c = true) :
    xorAll (l.map Char.toNat) < 256 := by
  induction l with
  | nil => simp [xorAll]
  | cons a as ih =>
    have hr := ih (fun c hc => h c (by simp [hc]))
    obtain ⟨_, h2, _⟩ := plainChar_bounds a (h a (by simp))
    simp only [List.map_cons, xorAll]
    exact Nat.xor_lt_two_pow (n := 8) (by omega) hr

theorem xorBytes_cons (cs c : Nat) (r : List Nat) :
    xorBytes cs (c :: r) = xorBytes (if c ≠ 36 ∧ c ≠ 42 then (cs ^^^ c) % 256 else cs) r := by
  rw [xorBytes]

theorem xorBytes_plain (l : List Char) (h : ∀ c ∈ l, plainChar c = true) (cs : Nat)
    (hcs : cs < 256) (rest : List Nat) :
    xorBytes cs (l.map Char.toNat ++ rest) = xorBytes (cs ^^^ xorAll (l.map Char.toNat)) rest := by
  induction l generalizing cs with
  | nil => simp [xorAll]
  | cons a as ih =>
    obtain ⟨_, h2, h3, h4, _⟩ := plainChar_bounds a (h a (by simp))
    have hlt : cs ^^^ a.toNat < 256 := Nat.xor_lt_two_pow (n := 8) hcs (by omega)
    rw [List.map_cons, List.cons_append, xorBytes_cons, xorAll]
    simp only [ne_eq, h3, not_false_eq_true, h4, and_self, if_true, Nat.mod_eq_of_lt hlt]
    rw [ih (fun c hc => h c (by simp [hc])) _ hlt, Nat.xor_assoc]

/-- On a sentence of plain characters the checksum is the exclusive or of all its bytes. -/
theorem checksum_plain (b : String) (h : ∀ c ∈ b.data, plainChar c = true) :
    checksum ("$" ++ b ++ "*") = xorAll (bytes b) := by
  unfold checksum strconv.QuoteToASCII bytes
  have hd : ("$" ++ b ++ "*").data = '$' :: (b.data ++ ['*']) := by simp
  have hq : quoteRune '$' = ['$'] := by decide
  have hq2 : quoteRune '*' = ['*'] := by decide
  have hu1 : utf8 '"' = [34] := by decide
  have hu2 : utf8 '$' = [36] := by decide
  have hu3 : utf8 '*' = [42] := by decide
  have hx := xorAll_lt b.data h
  have e : ('"' :: ("$" ++ b ++ "*").data.flatMap quoteRune ++ ['"']).flatMap utf8
      = 34 :: 36 :: (b.data.map Char.toNat ++ [42, 34]) := by
    rw [hd]
    simp only [List.flatMap_cons, List.flatMap_append, List.flatMap_nil, hq, hq2,
      flatMap_quoteRune_plain b.data h, List.append_nil, List.cons_append, List.nil_append,
      hu1, hu2, hu3, flatMap_utf8_plain b.data h, List.singleton_append, List.append_assoc]
  rw [e, xorBytes_cons, xorBytes_cons]
  have h34 : (if (34 : Nat) ≠ 36 ∧ (34 : Nat) ≠ 42 then (0 ^^^ 34) % 256 else 0) = 34 := by decide
  rw [h34]
  have h36 : (if (36 : Nat) ≠ 36 ∧ (36 : Nat) ≠ 42 then (34 ^^^ 36) % 256 else 34) = 34 := by
    decide
  rw [h36, xorBytes_plain b.data h 34 (by decide) [42, 34], xorBytes_cons, xorBytes_cons]
  have hlt : (34 ^^^ xorAll (List.map Char.toNat b.data)) < 256 :=
    Nat.xor_lt_two_pow (n := 8) (by decide) hx
  simp only [ne_eq, not_true_eq_false, and_false, Nat.reduceEqDiff, not_false_eq_true,
    and_self, if_true, if_false, xorBytes]
  rw [Nat.xor_comm 34, Nat.xor_assoc, Nat.xor_self, Nat.xor_zero, Nat.mod_eq_of_lt hx,
    flatMap_utf8_plain b.data h]


/-- A non-empty query comes from a non-empty sentence and has the four parameters, `gprmc=`,
the sentence, `,A*` and the checksum digits. -/
theorem createGPRMCQuery_nonempty {F R : Type} (L : FloatLib F) (dev : devPattern R)
    (m : List String) (q : String) (e : Option String)
    (h : createGPRMCQuery L dev m = some (q, e)) (hq : q ≠ "") :
    ∃ s : String, buildSentence L dev m = some s ∧ s ≠ "" ∧ e = none ∧
      q = param "acc" (auxValue L dev m ACC) ++ (param "alt" (auxValue L dev m ALT) ++
        (param "imei" (auxValue L dev m DEVIMEI) ++ (param "id" (auxValue L dev m DEVID) ++
        ("gprmc=" ++ (s ++ ",A*" ++ Sprintf_02X (checksum (s ++ ",A*"))))))) := by
  rw [createGPRMCQuery_eq] at h
  by_cases h2 : m.length < 2
  · simp only [h2, if_true, Option.some.injEq, Prod.mk.injEq] at h
    exact absurd h.1.symm hq
  · simp only [h2, if_false] at h
    cases hs : buildSentence L dev m with
    | none => simp [hs] at h
    | some s =>
      simp only [hs] at h
      by_cases hne : s ≠ ""
      · rw [if_pos hne] at h
        simp only [Option.some.injEq, Prod.mk.injEq] at h
        exact ⟨s, rfl, hne, h.2.symm, h.1.symm⟩
      · rw [if_neg hne] at h
        simp only [Option.some.injEq, Prod.mk.injEq] at h
        exact absurd h.1.symm hq

theorem auxValue_ACC {F R : Type} (L : FloatLib F) (dev : devPattern R) (m : List String) :
    auxValue L dev m ACC = (captured dev m ACC).getD "0.0" := by
  simp [auxValue, getGPSValue_ACC]

theorem auxValue_ALT {F R : Type} (L : FloatLib F) (dev : devPattern R) (m : List String) :
    auxValue L dev m ALT = (captured dev m ALT).getD "0.0" := by
  simp [auxValue, getGPSValue_ALT]

theorem auxValue_DEVIMEI {F R : Type} (L : FloatLib F) (dev : devPattern R) (m : List String) :
    auxValue L dev m DEVIMEI = (captured dev m DEVIMEI).getD "" := by
  simp [auxValue, getGPSValue_DEVIMEI]

theorem auxValue_DEVID {F R : Type} (L : FloatLib F) (dev : devPattern R) (m : List String) :
    auxValue L dev m DEVID = (captured dev m DEVID).getD "" := by
  simp [auxValue, getGPSValue_DEVID]

theorem param_empty (name : String) : param name "" = "" := by
  simp [param, len, bytes]

theorem isGPRMC_iff (O : List Int) : isGPRMC O = true ↔ GPRMC ∈ O := by
  induction O with
  | nil => simp [isGPRMC]
  | cons a as ih =>
    by_cases h : a = GPRMC
    · simp [isGPRMC, h]
    · have h2 : ¬ GPRMC = a := fun e => h e.symm
      simp [isGPRMC, h, h2, ih]

/-! ## C2: the checksum -/

/-- C2, as stated, fails: for the captured record `a*b` the digits after the final `*` are
`70`, the exclusive or of the bytes of the body without its `*`, while the exclusive or of
every byte between the leading `$` and the trailing `*` is `5A`. -/
theorem C2_checksum_counterexample :
    createGPRMCQuery goFloat (orderOnly [GPRMC] []) ["l", "a*b"]
      = some ("acc=0.0&alt=0.0&gprmc=$GPRMC,a*b,0.0,W,A*70", none) ∧
    Sprintf_02X (xorAll (bytes "GPRMC,a*b,0.0,W,A")) = "5A" := by
  decide!

/-- C2 (amended): in a non-empty query the value of `gprmc` is `$` + body + `*` + HH, where
HH is the two-digit upper-case hexadecimal rendering of the exclusive or of the bytes other
than `$` and `*` of the quoted ASCII rendering (`strconv.QuoteToASCII`) of `$` + body + `*`.
When the body has only printable ASCII characters other than `$`, `*`, the double quote and
the backslash, HH is the exclusive or of every byte of the body; an assembled sentence
(`Order` without GPRMC) always has such a body. -/
theorem C2_checksum {F R : Type} (L : FloatLib F) (dev : devPattern R)
    (m : List String) (q : String) (e : Option String)
    (h : createGPRMCQuery L dev m = some (q, e)) (hq : q ≠ "") :
    ∃ body : String,
      q = param "acc" (auxValue L dev m ACC) ++ param "alt" (auxValue L dev m ALT)
          ++ param "imei" (auxValue L dev m DEVIMEI) ++ param "id" (auxValue L dev m DEVID)
          ++ "gprmc=" ++ ("$" ++ body ++ "*") ++ Sprintf_02X (checksum ("$" ++ body ++ "*")) ∧
      ((∀ c ∈ body.data, plainChar c = true) →
        checksum ("$" ++ body ++ "*") = xorAll (bytes body)) ∧
      (isGPRMC dev.Order = false → ∀ c ∈ body.data, plainChar c = true) := by
  obtain ⟨s, hs, hne, _, hq2⟩ := createGPRMCQuery_nonempty L dev m q e h hq
  obtain ⟨b, hb, hp⟩ := buildSentence_shape L dev m s hs hne
  have hsb : s ++ ",A*" = "$" ++ (b ++ ",A") ++ "*" := by
    rw [hb]; apply String.ext; simp
  refine ⟨b ++ ",A", ?_, checksum_plain (b ++ ",A"), ?_⟩
  · rw [hq2, hsb]
    simp only [String.append_assoc]
  · intro hg c hc
    simp only [String.data_append, List.mem_append] at hc
    rcases hc with hc | hc
    · exact hp hg c hc
    · revert c; decide

/-- C2 (amended), at an assembled sentence. -/
theorem C2_checksum_witness :
    createGPRMCQuery goFloat (orderOnly [TIME, DEVID] []) ["l", "12", "x y"]
      = some ("acc=0.0&alt=0.0&id=x+y&gprmc=$GPRMC,++++12,A,0.0,N,0.0,E,0.0,0.0,0.0,0.0,W,A*14",
          none) ∧
    ∃ body : String,
      "acc=0.0&alt=0.0&id=x+y&gprmc=$GPRMC,++++12,A,0.0,N,0.0,E,0.0,0.0,0.0,0.0,W,A*14"
        = param "acc" (auxValue goFloat (orderOnly [TIME, DEVID] []) ["l", "12", "x y"] ACC)
          ++ param "alt" (auxValue goFloat (orderOnly [TIME, DEVID] []) ["l", "12", "x y"] ALT)
          ++ param "imei"
              (auxValue goFloat (orderOnly [TIME, DEVID] []) ["l", "12", "x y"] DEVIMEI)
          ++ param "id" (auxValue goFloat (orderOnly [TIME, DEVID] []) ["l", "12", "x y"] DEVID)
          ++ "gprmc=" ++ ("$" ++ body ++ "*") ++ Sprintf_02X (checksum ("$" ++ body ++ "*")) ∧
      ((∀ c ∈ body.data, plainChar c = true) →
        checksum ("$" ++ body ++ "*") = xorAll (bytes body)) ∧
      (isGPRMC (orderOnly [TIME, DEVID] []).Order = false →
        ∀ c ∈ body.data, plainChar c = true) :=
  ⟨by decide!,
    C2_checksum goFloat (orderOnly [TIME, DEVID] []) ["l", "12", "x y"] _ none (by decide!)
      (by decide)⟩


/-! ## C3: passthrough mode -/

/-- C3: when `Order` contains GPRMC and the GPRMC capture is a non-empty string `b`, the
sentence of the `gprmc` parameter is `$GPRMC,` + `b` + `,0.0,W,A*` followed by the checksum
digits, after the auxiliary parameters. -/
theorem C3_passthrough {F R : Type} (L : FloatLib F) (dev : devPattern R)
    (m : List String) (b : String) (hO : GPRMC ∈ dev.Order)
    (hb : captured dev m GPRMC = some b) (hne : b ≠ "") :
    createGPRMCQuery L dev m =
      some (param "acc" (auxValue L dev m ACC) ++ param "alt" (auxValue L dev m ALT)
          ++ param "imei" (auxValue L dev m DEVIMEI) ++ param "id" (auxValue L dev m DEVID)
          ++ "gprmc=" ++ ("$GPRMC," ++ b ++ ",0.0,W,A*")
          ++ Sprintf_02X (checksum ("$GPRMC," ++ b ++ ",0.0,W,A*")), none) := by
  have hlen : ¬ m.length < 2 := by
    intro hlt
    unfold captured at hb
    simp only [hO, if_true] at hb
    have : orderIndex dev.Order GPRMC + 1 < m.length := by
      by_contra hge
      rw [List.getElem?_eq_none (Nat.le_of_not_lt hge)] at hb
      exact absurd hb (by simp)
    omega
  have hs : buildSentence L dev m = some ("$GPRMC," ++ b ++ ",0.0,W") := by
    unfold buildSentence
    simp only [(isGPRMC_iff dev.Order).mpr hO, if_true, getGPSValue_GPRMC, hb,
      Option.getD_some, (len_pos_iff b).mpr hne, empty_append]
  have hne2 : "$GPRMC," ++ b ++ ",0.0,W" ≠ "" := by
    intro e
    have := congrArg String.data e
    simp at this
  rw [createGPRMCQuery_eq]
  simp only [hlen, if_false, hs]
  rw [if_pos hne2]
  have e1 : "$GPRMC," ++ b ++ ",0.0,W" ++ ",A*" = "$GPRMC," ++ b ++ ",0.0,W,A*" := by
    apply String.ext; simp
  rw [e1]
  simp only [String.append_assoc]

/-- C3 at the end-to-end scenario: `Order` `[DEVIMEI, GPRMC]` and the captures of the line
`*HQ,355488020824039,V1,180725,A,5337.37477,N,01010.26495,E,000.0,000.0,021017#`.  The
query contains `imei=355488020824039` and the sentence with the checksum `0B`, the exclusive
or of the bytes of its body. -/
theorem C3_passthrough_witness :
    GPRMC ∈ (orderOnly [DEVIMEI, GPRMC] [NONE, NONE]).Order ∧
    captured (orderOnly [DEVIMEI, GPRMC] [NONE, NONE])
        ["*HQ,355488020824039,V1,180725,A,5337.37477,N,01010.26495,E,000.0,000.0,021017#",
          "355488020824039", "180725,A,5337.37477,N,01010.26495,E,000.0,000.0,021017"] GPRMC
      = some "180725,A,5337.37477,N,01010.26495,E,000.0,000.0,021017" ∧
    "180725,A,5337.37477,N,01010.26495,E,000.0,000.0,021017" ≠ "" ∧
    createGPRMCQuery goFloat (orderOnly [DEVIMEI, GPRMC] [NONE, NONE])
        ["*HQ,355488020824039,V1,180725,A,5337.37477,N,01010.26495,E,000.0,000.0,021017#",
          "355488020824039", "180725,A,5337.37477,N,01010.26495,E,000.0,000.0,021017"]
      = some ("acc=0.0&alt=0.0&imei=355488020824039&gprmc=$GPRMC,180725,A,5337.37477,N,"
          ++ "01010.26495,E,000.0,000.0,021017,0.0,W,A*0B", none) ∧
    Sprintf_02X (xorAll (bytes
        "GPRMC,180725,A,5337.37477,N,01010.26495,E,000.0,000.0,021017,0.0,W,A")) = "0B" :=
  ⟨by decide, by decide!, by decide,
    (C3_passthrough goFloat (orderOnly [DEVIMEI, GPRMC] [NONE, NONE])
      ["*HQ,355488020824039,V1,180725,A,5337.37477,N,01010.26495,E,000.0,000.0,021017#",
        "355488020824039", "180725,A,5337.37477,N,01010.26495,E,000.0,000.0,021017"]
      "180725,A,5337.37477,N,01010.26495,E,000.0,000.0,021017" (by decide) (by decide!)
      (by decide)).trans (by decide!),
    by decide!⟩

/-! ## Lemmas on the defaults of `getGPSValue` -/

/-- Outside the hemisphere defaults the index handed back by `getGPSValue` is 0. -/
theorem getGPSValue_snd {F R : Type} (L : FloatLib F) (dev : devPattern R) (m : List String)
    (key : Int) (hNS : key ≠ NS) (hEW : key ≠ EW) (r : String × Int)
    (h : getGPSValue L dev m key = some r) : r.2 = 0 := by
  rw [getGPSValue] at h
  simp only [hNS, hEW, if_false] at h
  repeat' split at h
  all_goals first | (simp only [Option.some.injEq] at h; rw [← h]) | simp at h

/-- The default of NS: `N`, with the index handed back for LAT, which is 0. -/
theorem getGPSValue_NS_default {F R : Type} (L : FloatLib F) (dev : devPattern R)
    (m : List String) (hc : captured dev m NS = none) :
    getGPSValue L dev m NS = (getGPSValue L dev m LAT).bind (fun _ => some ("N", 0)) := by
  rw [getGPSValue]
  have hc2 := (not_found_iff dev m NS).mpr hc
  simp only [hc2, if_false, if_true]
  cases hl : getGPSValue L dev m LAT with
  | none => rfl
  | some r =>
    obtain ⟨v, idx⟩ := r
    have h0 : idx = 0 := getGPSValue_snd L dev m LAT (by decide) (by decide) _ hl
    subst h0
    simp

/-- The default of EW: `E`, with the index handed back for LON, which is 0. -/
theorem getGPSValue_EW_default {F R : Type} (L : FloatLib F) (dev : devPattern R)
    (m : List String) (hc : captured dev m EW = none) :
    getGPSValue L dev m EW = (getGPSValue L dev m LON).bind (fun _ => some ("E", 0)) := by
  rw [getGPSValue]
  have hc2 := (not_found_iff dev m EW).mpr hc
  have hne : ¬ (EW = NS) := by decide
  simp only [hc2, if_false, if_true, hne]
  cases hl : getGPSValue L dev m LON with
  | none => rfl
  | some r =>
    obtain ⟨v, idx⟩ := r
    have h0 : idx = 0 := getGPSValue_snd L dev m LON (by decide) (by decide) _ hl
    subst h0
    simp

/-- The conversion of a LAT or LON captured with unit DEGREE. -/
theorem getGPSValue_degree {F R : Type} (L : FloatLib F) (dev : devPattern R)
    (m : List String) (key : Int) (hk : key = LAT ∨ key = LON) (val : String)
    (hc : captured dev m key = some val)
    (hu : dev.Units[orderIndex dev.Order key]? = some DEGREE) :
    getGPSValue L dev m key =
      match L.ParseFloat val with
      | none => some (val, 0)
      | some degval =>
        some (Sprintf_d_f L (if key = LON then 3 else 2) (L.Abs (L.truncate degval))
          (L.mul (L.sub degval (L.truncate degval)) L.c60), 0) := by
  have hv := captured_eq_some dev m key val hc
  have hf := (found_iff dev m key).mpr (by rw [hc, hv])
  have h1 : ¬ (key = TIME ∨ key = DATE) := by rcases hk with h | h <;> rw [h] <;> decide
  have h2 : ¬ (key = ACTIVE) := by rcases hk with h | h <;> rw [h] <;> decide
  have h3 : ¬ (DEGREE = DEGMIN) := by decide
  rw [getGPSValue]
  simp only [hf, and_self, if_true, h1, if_false, h2, hk, hu, h3, ← hv]

theorem badVerb_head (x : String) : ("%!d(float64=" ++ x).data.head? = some '%' := by
  cases x; rfl


/-! ## C4, C5, C6: hemisphere default and unit conversion -/

/-- C4 on the code: with LAT captured as `-5.0` and NS not captured, `getGPSValue` for NS
returns `N` (the index handed back for LAT is 0, so the sign is never looked at), whatever
the float operations; likewise EW is `E` for a LON captured as `-5.0`.  Without LAT in
`Order`, NS is `N`. -/
theorem C4_hemisphere_default_on_code {F : Type} (L : FloatLib F) :
    getGPSValue L (orderOnly [LAT] [DEGREE]) ["l", "-5.0"] NS = some ("N", 0) ∧
    getGPSValue L (orderOnly [LON] [DEGREE]) ["l", "-5.0"] EW = some ("E", 0) ∧
    getGPSValue L (orderOnly [TIME] [NONE]) ["l", "120000"] NS = some ("N", 0) ∧
    getGPSValue goFloat (orderOnly [LAT] [DEGMIN]) ["l", "-5.0"] NS = some ("N", 0) := by
  refine ⟨?_, ?_, ?_, by decide!⟩
  · rw [getGPSValue_NS_default L _ _ (by decide),
      getGPSValue_degree L _ _ LAT (Or.inl rfl) "-5.0" (by decide) (by decide)]
    cases L.ParseFloat "-5.0" <;> rfl
  · rw [getGPSValue_EW_default L _ _ (by decide),
      getGPSValue_degree L _ _ LON (Or.inr rfl) "-5.0" (by decide) (by decide)]
    cases L.ParseFloat "-5.0" <;> rfl
  · rw [getGPSValue_NS_default L _ _ (by decide), getGPSValue]
    simp [orderOnly, orderIndex, NS, LAT, EW, LON, TIME, DATE, ACTIVE, SPEED, DEVIMEI, DEVID]

/-- C5 on the code: for LAT captured as `52.0` with unit DEGREE `getGPSValue` returns
`%!d(float64=52)00.00`, and for LON `%!d(float64=052)00.00`: the verb `%d` of the format is
applied to a `float64`.  Whatever the float operations, the result is not `5200.00`. -/
theorem C5_degree_conversion_on_code :
    getGPSValue goFloat (orderOnly [LAT] [DEGREE]) ["l", "52.0"] LAT
      = some ("%!d(float64=52)00.00", 0) ∧
    getGPSValue goFloat (orderOnly [LON] [DEGREE]) ["l", "52.0"] LON
      = some ("%!d(float64=052)00.00", 0) ∧
    ∀ (F : Type) (L : FloatLib F),
      getGPSValue L (orderOnly [LAT] [DEGREE]) ["l", "52.0"] LAT ≠ some ("5200.00", 0) := by
  refine ⟨by decide!, by decide!, ?_⟩
  intro F L
  rw [getGPSValue_degree L _ _ LAT (Or.inl rfl) "52.0" (by decide) (by decide)]
  cases L.ParseFloat "52.0" with
  | none =>
    intro e
    simp only [Option.some.injEq, Prod.mk.injEq] at e
    exact absurd e.1 (by decide)
  | some v =>
    intro e
    simp only [Sprintf_d_f, Option.some.injEq, Prod.mk.injEq, String.append_assoc] at e
    have h1 := badVerb_head (L.fmtV (if LAT = LON then 3 else 2) (L.Abs (L.truncate v)) ++ (")" ++
      L.fmtF 5 2 (L.mul (L.sub v (L.truncate v)) L.c60)))
    rw [e.1] at h1
    revert h1
    decide

/-- C6: for SPEED captured as `10.0`, `getGPSValue` returns `5.4` with unit KMPERH, `10.0`
with unit KNOTS and `19.4` with unit MPERS; in general, for a capture that parses to `v`, it
returns `v / 1.852` (KMPERH), `v * (3.6/1.852)` (MPERS) or `v` (KNOTS) formatted with
`%.1f`. -/
theorem C6_speed_normalization :
    getGPSValue goFloat (orderOnly [SPEED] [KMPERH]) ["l", "10.0"] SPEED = some ("5.4", 0) ∧
    getGPSValue goFloat (orderOnly [SPEED] [KNOTS]) ["l", "10.0"] SPEED = some ("10.0", 0) ∧
    getGPSValue goFloat (orderOnly [SPEED] [MPERS]) ["l", "10.0"] SPEED = some ("19.4", 0) ∧
    ∀ (F : Type) (L : FloatLib F) (val : String) (v : F), L.ParseFloat val = some v →
      getGPSValue L (orderOnly [SPEED] [KMPERH]) ["l", val] SPEED
        = some (L.fmtF 0 1 (L.div v L.c1_852), 0) ∧
      getGPSValue L (orderOnly [SPEED] [MPERS]) ["l", val] SPEED
        = some (L.fmtF 0 1 (L.mul v L.c3_6_div_1_852), 0) ∧
      getGPSValue L (orderOnly [SPEED] [KNOTS]) ["l", val] SPEED = some (L.fmtF 0 1 v, 0) := by
  refine ⟨by decide!, by decide!, by decide!, ?_⟩
  intro F L val v hv
  refine ⟨?_, ?_, ?_⟩
  · rw [getGPSValue]
    simp [orderOnly, orderIndex, NS, LAT, EW, LON, TIME, DATE, ACTIVE, SPEED, KMPERH, MPERS, hv]
  · rw [getGPSValue]
    simp [orderOnly, orderIndex, NS, LAT, EW, LON, TIME, DATE, ACTIVE, SPEED, KMPERH, MPERS, hv]
  · rw [getGPSValue]
    simp [orderOnly, orderIndex, NS, LAT, EW, LON, TIME, DATE, ACTIVE, SPEED, KMPERH, MPERS,
      KNOTS, hv]


/-! ## Lemmas on `filter_gps_device` -/

theorem tryPattern_accept {R : Type} (X : RegexpLib R) (p : ReqRespPat R) (msg : String)
    (ms : List String) (ha : accepts X p msg) :
    tryPattern X p msg ms = some (groupsOf X p msg, true) := by
  unfold accepts groupsOf at ha
  unfold tryPattern groupsOf
  obtain ⟨h1, h2⟩ := ha
  cases hm : matcher X p with
  | none => simp [hm] at h2
  | some re =>
    simp only [hm] at h2
    unfold matcher at hm
    simp [h1, hm, h2]

theorem tryPattern_reject {R : Type} (X : RegexpLib R) (p : ReqRespPat R) (msg : String)
    (ms : List String) (hc : len p.Msg > 0 → (matcher X p).isSome)
    (hn : ¬ accepts X p msg) :
    ∃ ms2, tryPattern X p msg ms = some (ms2, false) := by
  unfold accepts groupsOf at hn
  unfold tryPattern
  by_cases h1 : len p.Msg > 0
  · have h2 := hc h1
    cases hm : matcher X p with
    | none => simp [hm] at h2
    | some re =>
      simp only [hm, h1, true_and] at hn
      unfold matcher at hm
      refine ⟨X.FindStringSubmatch re msg, ?_⟩
      simp [h1, hm, hn]
  · exact ⟨ms, by simp [h1]⟩

/-- The loop runs through devices that accept nothing and leaves the flags and the response
as they were. -/
theorem scanDevices_none {R : Type} (X : RegexpLib R) (msg : String)
    (rest : List (devPattern R)) (hc : compiles X rest)
    (hn : ∀ dev ∈ rest, ∀ k : Kind, ¬ accepts X (dev.pat k) msg) (i : Nat) (st : ScanState) :
    ∃ id ms, scanDevices X msg rest i st
      = some ⟨id, st.isLogin, st.isHeart, st.isData, st.response, ms⟩ := by
  induction rest generalizing i st with
  | nil => exact ⟨st.id, st.matchedStrings, rfl⟩
  | cons dev more ih =>
    have hc2 : compiles X more := fun d hd k => hc d (List.mem_cons_of_mem _ hd) k
    have hn2 : ∀ d ∈ more, ∀ k : Kind, ¬ accepts X (d.pat k) msg :=
      fun d hd k => hn d (List.mem_cons_of_mem _ hd) k
    have hd : dev ∈ dev :: more := List.mem_cons_self _ _
    rw [scanDevices]
    dsimp only
    obtain ⟨m1, h1⟩ := tryPattern_reject X dev.Login msg st.matchedStrings
      (hc dev hd .Login) (hn dev hd .Login)
    obtain ⟨m2, h2⟩ := tryPattern_reject X dev.Heartbeat msg m1
      (hc dev hd .Heartbeat) (hn dev hd .Heartbeat)
    obtain ⟨m3, h3⟩ := tryPattern_reject X dev.Gps_data msg m2
      (hc dev hd .Gps_data) (hn dev hd .Gps_data)
    simp only [h1, h2, h3]
    exact ih hc2 hn2 (i + 1) _

/-- The loop breaks at the first device and kind that accept the line. -/
theorem scanDevices_hit {R : Type} (X : RegexpLib R) (msg : String)
    (pre : List (devPattern R)) (dev : devPattern R) (post : List (devPattern R)) (k : Kind)
    (hc : compiles X (pre ++ dev :: post))
    (hpre : ∀ d ∈ pre, ∀ k2 : Kind, ¬ accepts X (d.pat k2) msg)
    (hk : ∀ k2 : Kind, k2.rank < k.rank → ¬ accepts X (dev.pat k2) msg)
    (ha : accepts X (dev.pat k) msg) (i : Nat) (ms : List String) (id : Nat) :
    scanDevices X msg (pre ++ dev :: post) i ⟨id, false, false, false, "", ms⟩
      = some (hitState (i + pre.length) dev k (groupsOf X (dev.pat k) msg)) := by
  induction pre generalizing i ms id with
  | nil =>
    have hd : dev ∈ [] ++ dev :: post := by simp
    rw [List.nil_append, scanDevices]
    dsimp only
    cases k with
    | Login =>
      have h1 := tryPattern_accept X dev.Login msg ms ha
      simp only [h1]
      rfl
    | Heartbeat =>
      obtain ⟨m1, h1⟩ := tryPattern_reject X dev.Login msg ms
        (hc dev hd .Login) (hk .Login (by decide))
      have h2 := tryPattern_accept X dev.Heartbeat msg m1 ha
      simp only [h1, h2]
      rfl
    | Gps_data =>
      obtain ⟨m1, h1⟩ := tryPattern_reject X dev.Login msg ms
        (hc dev hd .Login) (hk .Login (by decide))
      obtain ⟨m2, h2⟩ := tryPattern_reject X dev.Heartbeat msg m1
        (hc dev hd .Heartbeat) (hk .Heartbeat (by decide))
      have h3 := tryPattern_accept X dev.Gps_data msg m2 ha
      simp only [h1, h2, h3]
      rfl
  | cons d more ih =>
    have hd : d ∈ (d :: more) ++ dev :: post := by simp
    have hc2 : compiles X (more ++ dev :: post) :=
      fun x hx k2 => hc x (by simp only [List.cons_append]; exact List.mem_cons_of_mem _ hx) k2
    have hpre2 : ∀ x ∈ more, ∀ k2 : Kind, ¬ accepts X (x.pat k2) msg :=
      fun x hx k2 => hpre x (List.mem_cons_of_mem _ hx) k2
    have hdp : d ∈ d :: more := List.mem_cons_self _ _
    rw [List.cons_append, scanDevices]
    dsimp only
    obtain ⟨m1, h1⟩ := tryPattern_reject X d.Login msg ms (hc d hd .Login) (hpre d hdp .Login)
    obtain ⟨m2, h2⟩ := tryPattern_reject X d.Heartbeat msg m1
      (hc d hd .Heartbeat) (hpre d hdp .Heartbeat)
    obtain ⟨m3, h3⟩ := tryPattern_reject X d.Gps_data msg m2
      (hc d hd .Gps_data) (hpre d hdp .Gps_data)
    simp only [h1, h2, h3]
    rw [ih hc2 hpre2 (i + 1) m3 i]
    simp only [List.length_cons]
    congr 2
    omega


/-- Among devices of which one accepts the line there is a first device and, for it, a first
kind that accept it. -/
theorem exists_first_accept {R : Type} (X : RegexpLib R) (msg : String)
    (rest : List (devPattern R))
    (h : ∃ dev ∈ rest, ∃ k : Kind, accepts X (dev.pat k) msg) :
    ∃ pre dev post k, rest = pre ++ dev :: post ∧
      (∀ d ∈ pre, ∀ k2 : Kind, ¬ accepts X (d.pat k2) msg) ∧
      (∀ k2 : Kind, k2.rank < k.rank → ¬ accepts X (dev.pat k2) msg) ∧
      accepts X (dev.pat k) msg := by
  induction rest with
  | nil => simp at h
  | cons d more ih =>
    by_cases h1 : accepts X (d.pat .Login) msg
    · exact ⟨[], d, more, .Login, rfl, by simp, fun k2 hk => by cases k2 <;> simp [Kind.rank] at hk,
        h1⟩
    · by_cases h2 : accepts X (d.pat .Heartbeat) msg
      · refine ⟨[], d, more, .Heartbeat, rfl, by simp, fun k2 hk => ?_, h2⟩
        cases k2 with
        | Login => exact h1
        | Heartbeat => simp [Kind.rank] at hk
        | Gps_data => simp [Kind.rank] at hk
      · by_cases h3 : accepts X (d.pat .Gps_data) msg
        · refine ⟨[], d, more, .Gps_data, rfl, by simp, fun k2 hk => ?_, h3⟩
          cases k2 with
          | Login => exact h1
          | Heartbeat => exact h2
          | Gps_data => simp [Kind.rank] at hk
        · have hd : ∀ k2 : Kind, ¬ accepts X (d.pat k2) msg := by
            intro k2; cases k2
            · exact h1
            · exact h2
            · exact h3
          have hm : ∃ dev ∈ more, ∃ k : Kind, accepts X (dev.pat k) msg := by
            obtain ⟨dev, hmem, k, hk⟩ := h
            rcases List.mem_cons.mp hmem with e | e
            · subst e; exact absurd hk (hd k)
            · exact ⟨dev, e, k, hk⟩
          obtain ⟨pre, dev, post, k, e, hp, hk, ha⟩ := ih hm
          refine ⟨d :: pre, dev, post, k, by rw [e]; rfl, ?_, hk, ha⟩
          intro x hx k2
          rcases List.mem_cons.mp hx with e2 | e2
          · subst e2; exact hd k2
          · exact hp x e2 k2

theorem createGPRMCQuery_err {F R : Type} (L : FloatLib F) (dev : devPattern R)
    (m : List String) (q : String) (e : Option String)
    (h : createGPRMCQuery L dev m = some (q, e)) : e = none := by
  rw [createGPRMCQuery_eq] at h
  split at h
  · simp only [Option.some.injEq, Prod.mk.injEq] at h; exact h.2.symm
  · split at h
    · simp at h
    · split at h
      · simp only [Option.some.injEq, Prod.mk.injEq] at h; exact h.2.symm
      · simp only [Option.some.injEq, Prod.mk.injEq] at h; exact h.2.symm

/-- The result of `filter_gps_device` once its loop has broken out at device `i`. -/
theorem filter_of_hit {F R : Type} (X : RegexpLib R) (L : FloatLib F)
    (devs : List (devPattern R)) (msg : String) (i : Nat) (dev : devPattern R) (k : Kind)
    (ms : List String)
    (hs : scanDevices X msg devs 0 ⟨0, false, false, false, "", []⟩ = some (hitState i dev k ms))
    (hi : devs[i]? = some dev) :
    filter_gps_device X L devs msg = resultAt L dev k ms := by
  unfold filter_gps_device resultAt
  rw [hs]
  cases k with
  | Login => simp [hitState]
  | Heartbeat => simp [hitState]
  | Gps_data =>
    simp only [hitState, hi]
    cases createGPRMCQuery L dev ms with
    | none => simp
    | some r => simp

/-- The result of `filter_gps_device` at the first device and kind that accept the line. -/
theorem filter_first_accept {F R : Type} (X : RegexpLib R) (L : FloatLib F) (msg : String)
    (pre : List (devPattern R)) (dev : devPattern R) (post : List (devPattern R)) (k : Kind)
    (hc : compiles X (pre ++ dev :: post))
    (hpre : ∀ d ∈ pre, ∀ k2 : Kind, ¬ accepts X (d.pat k2) msg)
    (hk : ∀ k2 : Kind, k2.rank < k.rank → ¬ accepts X (dev.pat k2) msg)
    (ha : accepts X (dev.pat k) msg) :
    filter_gps_device X L (pre ++ dev :: post) msg
      = resultAt L dev k (groupsOf X (dev.pat k) msg) := by
  have hs := scanDevices_hit X msg pre dev post k hc hpre hk ha 0 [] 0
  rw [Nat.zero_add] at hs
  have hi : (pre ++ dev :: post)[pre.length]? = some dev := by
    rw [List.getElem?_append_right (Nat.le_refl _)]
    simp
  exact filter_of_hit X L _ msg pre.length dev k _ hs hi

/-- After an accepted pattern the error is `nil`. -/
theorem resultAt_err {F R : Type} (L : FloatLib F) (dev : devPattern R) (k : Kind)
    (ms : List String) (resp q : String) (e : Option String)
    (h : resultAt L dev k ms = some (resp, q, e)) : e = none := by
  unfold resultAt at h
  cases k with
  | Login => simp only [Option.some.injEq, Prod.mk.injEq] at h; exact h.2.2.symm
  | Heartbeat => simp only [Option.some.injEq, Prod.mk.injEq] at h; exact h.2.2.symm
  | Gps_data =>
    simp only at h
    cases hq : createGPRMCQuery L dev ms with
    | none => simp [hq] at h
    | some r =>
      obtain ⟨q2, e2⟩ := r
      have he := createGPRMCQuery_err L dev _ q2 e2 hq
      simp only [hq, Option.map_some', Option.some.injEq, Prod.mk.injEq] at h
      rw [← h.2.2, he]

/-- Without an accepted pattern the result is the error `Unknown Device`. -/
theorem filter_no_accept {F R : Type} (X : RegexpLib R) (L : FloatLib F)
    (devs : List (devPattern R)) (msg : String) (hc : compiles X devs)
    (hn : ∀ dev ∈ devs, ∀ k : Kind, ¬ accepts X (dev.pat k) msg) :
    filter_gps_device X L devs msg = some ("", "", some "Unknown Device") := by
  obtain ⟨id, ms, hs⟩ := scanDevices_none X msg devs hc hn 0 ⟨0, false, false, false, "", []⟩
  unfold filter_gps_device
  rw [hs]
  simp


theorem compiles_devices : compiles goRegexp devices := by
  intro dev hd k
  simp only [devices, List.mem_cons, List.mem_singleton, List.not_mem_nil, or_false] at hd
  rcases hd with e | e <;> subst e <;> cases k <;> decide!

theorem compiles_shadowDevs : compiles goRegexp shadowDevs := by
  intro dev hd k
  simp only [shadowDevs, List.mem_cons, List.mem_singleton, List.not_mem_nil, or_false] at hd
  rcases hd with e | e <;> subst e <;> cases k <;> decide!

/-! ## C7: the error `Unknown Device` -/

/-- C7: over a device list whose non-empty patterns all have a matcher, `filter_gps_device`
returns the error `Unknown Device` if and only if no device and no kind accepts the line
(a non-empty pattern with more than 2 groups); the response and the query are then empty. -/
theorem C7_unknown_device {F R : Type} (X : RegexpLib R) (L : FloatLib F)
    (devs : List (devPattern R)) (msg : String) (hc : compiles X devs) :
    ((∃ resp q, filter_gps_device X L devs msg = some (resp, q, some "Unknown Device")) ↔
      ∀ dev ∈ devs, ∀ k : Kind, ¬ accepts X (dev.pat k) msg) ∧
    (∀ resp q, filter_gps_device X L devs msg = some (resp, q, some "Unknown Device") →
      resp = "" ∧ q = "") := by
  have key : ∀ resp q, filter_gps_device X L devs msg = some (resp, q, some "Unknown Device") →
      ∀ dev ∈ devs, ∀ k : Kind, ¬ accepts X (dev.pat k) msg := by
    intro resp q h
    by_contra hex
    have hex2 : ∃ dev ∈ devs, ∃ k : Kind, accepts X (dev.pat k) msg := by
      by_contra hno
      apply hex
      intro dev hd k ha
      exact hno ⟨dev, hd, k, ha⟩
    obtain ⟨pre, dev, post, k, e, hp, hk, ha⟩ := exists_first_accept X msg devs hex2
    subst e
    rw [filter_first_accept X L msg pre dev post k hc hp hk ha] at h
    have := resultAt_err L dev k _ resp q _ h
    simp at this
  refine ⟨⟨fun ⟨resp, q, h⟩ => key resp q h, fun hn => ⟨"", "", filter_no_accept X L devs msg hc hn⟩⟩,
    ?_⟩
  intro resp q h
  have h2 := filter_no_accept X L devs msg hc (key resp q h)
  rw [h2] at h
  simp only [Option.some.injEq, Prod.mk.injEq] at h
  exact ⟨h.1.symm, h.2.1.symm⟩

/-- C7 at the built-in device table and the line `hello`, which no pattern accepts. -/
theorem C7_unknown_device_witness :
    compiles goRegexp devices ∧
    filter_gps_device goRegexp goFloat devices "hello" = some ("", "", some "Unknown Device") ∧
    ∀ dev ∈ devices, ∀ k : Kind, ¬ accepts goRegexp (dev.pat k) "hello" :=
  ⟨compiles_devices, by decide!,
    (C7_unknown_device goRegexp goFloat devices "hello" compiles_devices).1.mp
      ⟨"", "", by decide!⟩⟩

/-! ## C8: the first match wins -/

/-- C8: over a device list whose non-empty patterns all have a matcher, when device `i`
accepts the line as kind `k`, no kind before `k` of that device accepts it and no device
before `i` accepts it as any kind, the result of `filter_gps_device` is the one for that
device, kind and match: the response is that kind's `Resp`, and the query is empty for
Login and Heartbeat and built from the groups of that match for Gps_data. -/
theorem C8_first_match_wins {F R : Type} (X : RegexpLib R) (L : FloatLib F)
    (devs : List (devPattern R)) (msg : String) (i : Nat) (dev : devPattern R) (k : Kind)
    (hc : compiles X devs) (hi : devs[i]? = some dev)
    (ha : accepts X (dev.pat k) msg)
    (hk : ∀ k2 : Kind, k2.rank < k.rank → ¬ accepts X (dev.pat k2) msg)
    (hpre : ∀ (j : Nat) (d : devPattern R), j < i → devs[j]? = some d →
      ∀ k2 : Kind, ¬ accepts X (d.pat k2) msg) :
    filter_gps_device X L devs msg = resultAt L dev k (groupsOf X (dev.pat k) msg) := by
  obtain ⟨hlt, hget⟩ := List.getElem?_eq_some.mp hi
  have hsplit : devs = devs.take i ++ dev :: devs.drop (i + 1) := by
    rw [← hget, ← List.drop_eq_getElem_cons hlt, List.take_append_drop]
  have hlen : (devs.take i).length = i := by
    rw [List.length_take]; omega
  have hp : ∀ d ∈ devs.take i, ∀ k2 : Kind, ¬ accepts X (d.pat k2) msg := by
    intro d hd k2
    obtain ⟨j, hj, hdj⟩ := List.getElem_of_mem hd
    have hj2 : j < i := by rw [hlen] at hj; exact hj
    apply hpre j d hj2
    rw [List.getElem_take] at hdj
    rw [← hdj]
    exact List.getElem?_eq_getElem (by omega)
  have hc2 : compiles X (devs.take i ++ dev :: devs.drop (i + 1)) := by rw [← hsplit]; exact hc
  have := filter_first_accept X L msg (devs.take i) dev (devs.drop (i + 1)) k hc2 hp hk ha
  rw [← hsplit] at this
  exact this

/-- C8 at two devices that both accept the line `ab`, the first as a heartbeat and the
second as data: the answer is the heartbeat response of the first and no query is built. -/
theorem C8_first_match_wins_witness :
    compiles goRegexp shadowDevs ∧
    shadowDevs[0]? = some firstDev ∧
    accepts goRegexp (firstDev.pat Kind.Heartbeat) "ab" ∧
    accepts goRegexp (secondDev.pat Kind.Gps_data) "ab" ∧
    filter_gps_device goRegexp goFloat shadowDevs "ab" = some ("ON", "", none) :=
  ⟨compiles_shadowDevs, rfl, by decide!, by decide!,
    (C8_first_match_wins goRegexp goFloat shadowDevs "ab" 0 firstDev Kind.Heartbeat
      compiles_shadowDevs rfl (by decide!)
      (fun k2 h => by cases k2 <;> first | decide! | exact absurd h (by decide))
      (fun j d h => absurd h (Nat.not_lt_zero j))).trans (by decide!)⟩


/-! ## The shape of a match of the response pattern -/

theorem findFrom_length (r : Re) (s : List Char) (pos : Nat) (rest : List Char) :
    findFrom r s pos rest = [] ∨ (findFrom r s pos rest).length = 1 + r.groups := by
  induction rest generalizing pos with
  | nil =>
    rw [findFrom]
    cases r.run ⟨pos, [], []⟩ with
    | nil => left; rfl
    | cons t ts => right; simp [submatch, Nat.add_comm]
  | cons c cs ih =>
    rw [findFrom]
    cases r.run ⟨pos, c :: cs, []⟩ with
    | nil => exact ih (pos + 1)
    | cons t ts => right; simp [submatch, Nat.add_comm]

/-- A match of the response pattern has two entries: the whole match and the word. -/
theorem regexpHTTPResponse_shape (response : String) :
    regexpHTTPResponse.FindStringSubmatch response = [] ∨
      ∃ whole word, regexpHTTPResponse.FindStringSubmatch response = [whole, word] := by
  unfold Re.FindStringSubmatch
  rcases findFrom_length regexpHTTPResponse response.data 0 response.data with h | h
  · left; exact h
  · right
    have hg : regexpHTTPResponse.groups = 1 := by decide
    rw [hg] at h
    match hf : findFrom regexpHTTPResponse response.data 0 response.data, h with
    | [a, b], _ => exact ⟨a, b, rfl⟩

/-! ## Lemmas on the matcher -/

/-- The branch of `getGPSValue` for a captured tag. -/
theorem getGPSValue_found {F R : Type} (L : FloatLib F) (dev : devPattern R)
    (m : List String) (key : Int) (v : String) (hc : captured dev m key = some v) :
    getGPSValue L dev m key =
      (if key = TIME ∨ key = DATE then some (Sprintf_6s v, 0)
      else if key = ACTIVE then some (v, 0)
      else if key = LAT ∨ key = LON then
        match dev.Units[orderIndex dev.Order key]? with
        | none => none
        | some u =>
          if u = DEGMIN then some (v, 0)
          else
            match L.ParseFloat v with
            | none => some (v, 0)
            | some degval =>
              if u = DEGREE then
                some (Sprintf_d_f L (if key = LON then 3 else 2) (L.Abs (L.truncate degval))
                  (L.mul (L.sub degval (L.truncate degval)) L.c60), 0)
              else some (v, 0)
      else if key = SPEED then
        match L.ParseFloat v with
        | none => some (v, 0)
        | some x =>
          match dev.Units[orderIndex dev.Order key]? with
          | none => none
          | some u =>
            some (L.fmtF 0 1
              (if u = MPERS then
                L.mul (if u = KMPERH then L.div x L.c1_852 else x) L.c3_6_div_1_852
              else (if u = KMPERH then L.div x L.c1_852 else x)), 0)
      else some (v, 0) : Option (String × Int)) := by
  have hv := captured_eq_some dev m key v hc
  have hf := (found_iff dev m key).mpr (by rw [hc, hv])
  rw [getGPSValue]
  simp only [hf, and_self, if_true, ← hv]

/-- The branch of `getGPSValue` for a tag that is not captured. -/
theorem getGPSValue_not_found {F R : Type} (L : FloatLib F) (dev : devPattern R)
    (m : List String) (key : Int) (hc : captured dev m key = none) :
    getGPSValue L dev m key =
      (if key = NS then (getGPSValue L dev m LAT).bind (fun _ => some ("N", 0))
      else if key = EW then (getGPSValue L dev m LON).bind (fun _ => some ("E", 0))
      else if key = ACTIVE then some ("A", 0)
      else if key = DEVIMEI ∨ key = DEVID then some ("", 0)
      else some ("0.0", 0) : Option (String × Int)) := by
  by_cases hNS : key = NS
  · subst hNS
    rw [getGPSValue_NS_default L dev m hc]
    simp
  · by_cases hEW : key = EW
    · subst hEW
      rw [getGPSValue_EW_default L dev m hc]
      simp [hNS]
    · have hf := (not_found_iff dev m key).mpr hc
      conv_lhs => rw [getGPSValue]
      simp only [hf, if_false, hNS, hEW]

theorem units_get_none_iff {R : Type} (dev : devPattern R) (i : Nat) :
    dev.Units[i]? = none ↔ dev.Units.length ≤ i := by
  simp

/-- Outside the hemisphere defaults, `getGPSValue` panics exactly on a captured LAT or LON,
or a captured SPEED that parses, whose position lies beyond `Units`. -/
theorem getGPSValue_none_base {F R : Type} (L : FloatLib F) (dev : devPattern R)
    (m : List String) (key : Int) (hNS : key ≠ NS) (hEW : key ≠ EW) :
    getGPSValue L dev m key = none ↔
      ((key = LAT ∨ key = LON) ∧ unitsShort dev m key) ∨
      (key = SPEED ∧ unitsShort dev m SPEED ∧
        ∃ v, captured dev m SPEED = some v ∧ (L.ParseFloat v).isSome) := by
  cases hc : captured dev m key with
  | none =>
    rw [getGPSValue_not_found L dev m key hc]
    simp only [hNS, hEW, if_false]
    constructor
    · intro h
      split_ifs at h
    · intro h
      exfalso
      rcases h with ⟨_, h2, _⟩ | ⟨h1, h2, _⟩
      · simp [unitsShort, hc] at h2
      · rw [h1] at hc; simp [unitsShort, hc] at h2
  | some v =>
    rw [getGPSValue_found L dev m key v hc]
    by_cases h1 : key = TIME ∨ key = DATE
    · have h2 : ¬ (key = LAT ∨ key = LON) := by rcases h1 with h | h <;> rw [h] <;> decide
      have h3 : ¬ key = SPEED := by rcases h1 with h | h <;> rw [h] <;> decide
      simp [h1, h2, h3]
    · by_cases h2 : key = ACTIVE
      · have h3 : ¬ (key = LAT ∨ key = LON) := by rw [h2]; decide
        have h4 : ¬ key = SPEED := by rw [h2]; decide
        simp only [h1, h3, h4, if_false, false_and, or_self, iff_false]
        simp [h2]
      · by_cases h3 : key = LAT ∨ key = LON
        · have h4 : ¬ key = SPEED := by rcases h3 with h | h <;> rw [h] <;> decide
          simp only [h1, h2, h3, h4, if_false, if_true, false_and, or_false, true_and,
            unitsShort, hc, Option.isSome_some]
          cases hu : dev.Units[orderIndex dev.Order key]? with
          | none => simpa using hu
          | some u =>
            have hlt : ¬ dev.Units.length ≤ orderIndex dev.Order key := by
              intro hle
              rw [(units_get_none_iff dev _).mpr hle] at hu
              exact absurd hu (by simp)
            simp only [hlt, iff_false]
            split_ifs <;> first | (simp; done) | (cases L.ParseFloat v <;> simp)
        · by_cases h4 : key = SPEED
          · subst h4
            simp only [h1, h2, h3, if_false, if_true, false_and, false_or, true_and,
              unitsShort, hc, Option.isSome_some, Option.some.injEq, exists_eq_left']
            cases hp : L.ParseFloat v with
            | none => simp
            | some x =>
              cases hu : dev.Units[orderIndex dev.Order SPEED]? with
              | none => simpa using hu
              | some u =>
                have hlt : ¬ dev.Units.length ≤ orderIndex dev.Order SPEED := by
                  intro hle
                  rw [(units_get_none_iff dev _).mpr hle] at hu
                  exact absurd hu (by simp)
                simp [hlt]
          · simp [h1, h2, h3, h4]

/-- The text handed back for a captured hemisphere tag is the capture itself. -/
theorem getGPSValue_found_hemisphere {F R : Type} (L : FloatLib F) (dev : devPattern R)
    (m : List String) (key : Int) (hk : key = NS ∨ key = EW) (v : String)
    (hc : captured dev m key = some v) : getGPSValue L dev m key = some (v, 0) := by
  rw [getGPSValue_found L dev m key v hc]
  rcases hk with h | h <;> subst h <;> simp [NS, EW, TIME, DATE, ACTIVE, LAT, LON, SPEED]

/-- The calls of `getGPSValue` that panic are those that read `Units` out of range. -/
theorem getGPSValue_none_iff {F R : Type} (L : FloatLib F) (dev : devPattern R)
    (m : List String) (key : Int) :
    getGPSValue L dev m key = none ↔ unitsOutOfRange L dev m key := by
  unfold unitsOutOfRange
  by_cases hNS : key = NS
  · subst hNS
    have e1 : ¬ (NS = LAT ∨ NS = LON) := by decide
    have e2 : ¬ (NS = SPEED) := by decide
    have e3 : ¬ (NS = EW) := by decide
    simp only [e1, e2, e3, false_and, false_or, or_false, true_and]
    cases hc : captured dev m NS with
    | none =>
      rw [getGPSValue_not_found L dev m NS hc]
      simp only [if_true, true_and]
      have hb := getGPSValue_none_base L dev m LAT (by decide) (by decide)
      have e4 : ¬ (LAT = SPEED) := by decide
      simp only [e4, false_and, or_false, true_or, true_and] at hb
      rw [← hb]
      cases getGPSValue L dev m LAT <;> simp
    | some v =>
      rw [getGPSValue_found_hemisphere L dev m NS (Or.inl rfl) v hc]
      simp
  · by_cases hEW : key = EW
    · subst hEW
      have e1 : ¬ (EW = LAT ∨ EW = LON) := by decide
      have e2 : ¬ (EW = SPEED) := by decide
      have e3 : ¬ (EW = NS) := by decide
      simp only [e1, e2, e3, false_and, false_or, or_false, true_and]
      cases hc : captured dev m EW with
      | none =>
        rw [getGPSValue_not_found L dev m EW hc]
        simp only [e3, if_false, if_true, true_and]
        have hb := getGPSValue_none_base L dev m LON (by decide) (by decide)
        have e4 : ¬ (LON = SPEED) := by decide
        simp only [e4, false_and, or_false, or_true, true_and] at hb
        rw [← hb]
        cases getGPSValue L dev m LON <;> simp
      | some v =>
        rw [getGPSValue_found_hemisphere L dev m EW (Or.inr rfl) v hc]
        simp
    · rw [getGPSValue_none_base L dev m key hNS hEW]
      simp only [hNS, hEW, false_and, or_false]

/-- With `Units` at least as long as `Order` no call of `getGPSValue` panics. -/
theorem getGPSValue_total {F R : Type} (L : FloatLib F) (dev : devPattern R)
    (m : List String) (hU : dev.Order.length ≤ dev.Units.length) (key : Int) :
    ∃ r, getGPSValue L dev m key = some r := by
  have hshort : ∀ k, ¬ unitsShort dev m k := by
    intro k ⟨h1, h2⟩
    have hin : k ∈ dev.Order := by
      unfold captured at h1
      by_contra hn
      simp [hn] at h1
    have := (orderIndex_lt_iff dev.Order k).mpr hin
    omega
  cases h : getGPSValue L dev m key with
  | some r => exact ⟨r, rfl⟩
  | none =>
    exfalso
    have := (getGPSValue_none_iff L dev m key).mp h
    rcases this with ⟨_, h2⟩ | ⟨_, h2, _⟩ | ⟨_, _, h2⟩ | ⟨_, _, h2⟩ <;> exact hshort _ h2

/-- The index handed back by `getGPSValue` is 0 for every tag. -/
theorem getGPSValue_idx {F R : Type} (L : FloatLib F) (dev : devPattern R) (m : List String)
    (key : Int) (r : String × Int) (h : getGPSValue L dev m key = some r) : r.2 = 0 := by
  by_cases hk : key = NS ∨ key = EW
  · cases hc : captured dev m key with
    | some v =>
      rw [getGPSValue_found_hemisphere L dev m key hk v hc] at h
      simp only [Option.some.injEq] at h
      rw [← h]
    | none =>
      rw [getGPSValue_not_found L dev m key hc] at h
      rcases hk with e | e
      · subst e
        simp only [if_true] at h
        cases hl : getGPSValue L dev m LAT with
        | none => simp [hl] at h
        | some x => simp only [hl, Option.some_bind, Option.some.injEq] at h; rw [← h]
      · subst e
        have e3 : ¬ (EW = NS) := by decide
        simp only [e3, if_false, if_true] at h
        cases hl : getGPSValue L dev m LON with
        | none => simp [hl] at h
        | some x => simp only [hl, Option.some_bind, Option.some.injEq] at h; rw [← h]
  · have h1 : key ≠ NS := fun e => hk (Or.inl e)
    have h2 : key ≠ EW := fun e => hk (Or.inr e)
    exact getGPSValue_snd L dev m key h1 h2 r h

theorem assemble_total {F R : Type} (L : FloatLib F) (dev : devPattern R) (m : List String)
    (ht : ∀ key, ∃ r, getGPSValue L dev m key = some r) (ks : List Int) (q : String) :
    ∃ s, assemble L dev m ks q = some s := by
  induction ks generalizing q with
  | nil => exact ⟨q, rfl⟩
  | cons k rest ih =>
    rw [assemble]
    by_cases h1 : k = HEAD
    · simp only [h1, if_true]; exact ih _
    · by_cases h2 : k = MAGN
      · simp only [h1, h2, if_true, if_false]; exact ih _
      · obtain ⟨r, hr⟩ := ht k
        simp only [h1, h2, if_false, hr]
        exact ih _

/-- When no call of `getGPSValue` panics, `createGPRMCQuery` returns, with a `nil` error. -/
theorem createGPRMCQuery_total {F R : Type} (L : FloatLib F) (dev : devPattern R)
    (m : List String) (ht : ∀ key, ∃ r, getGPSValue L dev m key = some r) :
    ∃ q, createGPRMCQuery L dev m = some (q, none) := by
  have hs : ∃ s, buildSentence L dev m = some s := by
    unfold buildSentence
    by_cases hg : isGPRMC dev.Order = true
    · simp only [hg, if_true, getGPSValue_GPRMC]
      exact ⟨_, rfl⟩
    · simp only [hg, Bool.false_eq_true, if_false]
      exact assemble_total L dev m ht _ _
  obtain ⟨s, hs⟩ := hs
  rw [createGPRMCQuery_eq]
  by_cases h2 : m.length < 2
  · exact ⟨"", by simp [h2]⟩
  · simp only [h2, if_false, hs]
    by_cases hne : s ≠ ""
    · rw [if_pos hne]; exact ⟨_, rfl⟩
    · rw [if_neg hne]; exact ⟨_, rfl⟩


/-! ## C12: width of TIME and DATE -/

/-- C12, as stated, fails: a TIME captured with 7 characters is handed back with its 7
characters, not 6. -/
theorem C12_width_counterexample :
    getGPSValue goFloat (orderOnly [TIME] [NONE]) ["l", "1234567"] TIME
      = some ("1234567", 0) ∧
    "1234567".length = 7 := by
  decide!

/-- C12 (amended): for a captured TIME or DATE `getGPSValue` returns the captured text padded
on the left with spaces to the width 6 (`%6s`): exactly 6 characters wide when the capture
has at most 6 characters, and the capture unchanged when it has 6 or more. -/
theorem C12_time_date_width {F R : Type} (L : FloatLib F) (dev : devPattern R)
    (m : List String) (key : Int) (v : String) (hk : key = TIME ∨ key = DATE)
    (hc : captured dev m key = some v) :
    getGPSValue L dev m key = some (⟨List.replicate (6 - v.length) ' ' ++ v.data⟩, 0) ∧
    (String.mk (List.replicate (6 - v.length) ' ' ++ v.data)).length = max 6 v.length ∧
    (v.length ≤ 6 → (String.mk (List.replicate (6 - v.length) ' ' ++ v.data)).length = 6) ∧
    (6 ≤ v.length → String.mk (List.replicate (6 - v.length) ' ' ++ v.data) = v) := by
  have hlen : (String.mk (List.replicate (6 - v.length) ' ' ++ v.data)).length
      = 6 - v.length + v.length := by
    obtain ⟨l⟩ := v
    show (List.replicate (6 - l.length) ' ' ++ l).length = 6 - l.length + l.length
    rw [List.length_append, List.length_replicate]
  refine ⟨?_, ?_, ?_, ?_⟩
  · rw [getGPSValue_found L dev m key v hc]
    simp only [hk, if_true, Sprintf_6s]
  · rw [hlen]; omega
  · intro h; rw [hlen]; omega
  · intro h
    have : 6 - v.length = 0 := by omega
    rw [this]
    rfl

/-- C12 (amended), at a TIME captured with 3 characters. -/
theorem C12_time_date_width_witness :
    captured (orderOnly [TIME] [NONE]) ["l", "123"] TIME = some "123" ∧
    getGPSValue goFloat (orderOnly [TIME] [NONE]) ["l", "123"] TIME = some ("   123", 0) ∧
    "   123".length = 6 :=
  ⟨by decide!,
    (C12_time_date_width goFloat (orderOnly [TIME] [NONE]) ["l", "123"] TIME "123"
      (Or.inl rfl) (by decide!)).1.trans (by decide),
    by decide⟩

/-! ## C13: `Units` shorter than `Order` -/

/-- C13, as stated, fails: with `Order` `[LAT]` and no `Units` the call for a captured LAT
panics on `dev.Units[0]`, and so does the call for NS, which asks for LAT. -/
theorem C13_units_counterexample :
    getGPSValue goFloat (orderOnly [LAT] []) ["l", "x"] LAT = none ∧
    getGPSValue goFloat (orderOnly [LAT] []) ["l", "x"] NS = none := by
  decide!

/-- C13 (amended): `getGPSValue` fails with an out-of-range access exactly when it reads
`Units` at the position of a captured tag beyond the end of `Units`: for a captured LAT or
LON, for a captured SPEED whose text parses, and for a defaulted NS (EW) when LAT (LON) is
captured there.  In every other case, also with `Units` shorter than `Order`, it returns a
value. -/
theorem C13_units_mismatch {F R : Type} (L : FloatLib F) (dev : devPattern R)
    (m : List String) (key : Int) :
    (getGPSValue L dev m key = none ↔ unitsOutOfRange L dev m key) ∧
    (¬ unitsOutOfRange L dev m key → ∃ r, getGPSValue L dev m key = some r) := by
  refine ⟨getGPSValue_none_iff L dev m key, ?_⟩
  intro hn
  cases h : getGPSValue L dev m key with
  | some r => exact ⟨r, rfl⟩
  | none => exact absurd ((getGPSValue_none_iff L dev m key).mp h) hn

/-! ## C19: totality with enough `Units` -/

/-- C19: when `Units` has at least as many entries as `Order`, `getGPSValue` returns a value
for every capture list and tag, and `createGPRMCQuery` returns a query with a `nil` error:
the out-of-range branch is not reached. -/
theorem C19_total_with_units {F R : Type} (L : FloatLib F) (dev : devPattern R)
    (m : List String) (hU : dev.Order.length ≤ dev.Units.length) :
    (∀ key, ∃ r, getGPSValue L dev m key = some r) ∧
    (∀ key, ¬ unitsOutOfRange L dev m key) ∧
    ∃ q, createGPRMCQuery L dev m = some (q, none) := by
  have ht := getGPSValue_total L dev m hU
  refine ⟨ht, ?_, createGPRMCQuery_total L dev m ht⟩
  intro key hn
  obtain ⟨r, hr⟩ := ht key
  rw [(getGPSValue_none_iff L dev m key).mpr hn] at hr
  exact absurd hr (by simp)

/-- C19 at a device with three converted fields and as many units. -/
theorem C19_total_with_units_witness :
    (orderOnly [LAT, LON, SPEED] [DEGMIN, DEGMIN, KNOTS]).Order.length
      ≤ (orderOnly [LAT, LON, SPEED] [DEGMIN, DEGMIN, KNOTS]).Units.length ∧
    (∀ key, ∃ r, getGPSValue goFloat (orderOnly [LAT, LON, SPEED] [DEGMIN, DEGMIN, KNOTS])
      ["l", "5130.5", "00703.6", "1.5"] key = some r) ∧
    createGPRMCQuery goFloat (orderOnly [LAT, LON, SPEED] [DEGMIN, DEGMIN, KNOTS])
        ["l", "5130.5", "00703.6", "1.5"]
      = some ("acc=0.0&alt=0.0&gprmc=$GPRMC,0.0,A,5130.5,N,00703.6,E,1.5,0.0,0.0,0.0,W,A*0D",
          none) :=
  ⟨by decide,
    (C19_total_with_units goFloat (orderOnly [LAT, LON, SPEED] [DEGMIN, DEGMIN, KNOTS])
      ["l", "5130.5", "00703.6", "1.5"] (by decide)).1,
    by decide!⟩

/-! ## C20: the index handed back -/

/-- C20: the index `getGPSValue` hands back is 0 for every device, capture list and tag, so
a defaulted NS is `N` and a defaulted EW is `E` whenever the call returns, and it returns
whenever the call for LAT (LON) does. -/
theorem C20_index_zero {F R : Type} (L : FloatLib F) (dev : devPattern R) (m : List String) :
    (∀ key r, getGPSValue L dev m key = some r → r.2 = 0) ∧
    (captured dev m NS = none →
      (∀ r, getGPSValue L dev m NS = some r → r = ("N", 0)) ∧
      ((∃ r, getGPSValue L dev m LAT = some r) → getGPSValue L dev m NS = some ("N", 0))) ∧
    (captured dev m EW = none →
      (∀ r, getGPSValue L dev m EW = some r → r = ("E", 0)) ∧
      ((∃ r, getGPSValue L dev m LON = some r) → getGPSValue L dev m EW = some ("E", 0))) := by
  refine ⟨fun key r h => getGPSValue_idx L dev m key r h, ?_, ?_⟩
  · intro hc
    rw [getGPSValue_NS_default L dev m hc]
    constructor
    · intro r h
      cases hl : getGPSValue L dev m LAT with
      | none => simp [hl] at h
      | some x => simp only [hl, Option.some_bind, Option.some.injEq] at h; exact h.symm
    · rintro ⟨r, hr⟩
      simp [hr]
  · intro hc
    rw [getGPSValue_EW_default L dev m hc]
    constructor
    · intro r h
      cases hl : getGPSValue L dev m LON with
      | none => simp [hl] at h
      | some x => simp only [hl, Option.some_bind, Option.some.injEq] at h; exact h.symm
    · rintro ⟨r, hr⟩
      simp [hr]


/-! ## C14: conversion of degrees -/

/-- C14 on the code: for LAT captured as `-5.5` with unit DEGREE `getGPSValue` returns
`%!d(float64=05)-30.00`: the minutes `(degval - deg) * 60` keep the sign of the input, only
the degrees go through `math.Abs` (and the verb `%d` does not take them).  In general, for a
capture that parses to `x`, the minutes handed to the format are `(x - trunc x) * 60`
without `math.Abs`. -/
theorem C14_negative_degree_on_code :
    getGPSValue goFloat (orderOnly [LAT] [DEGREE]) ["l", "-5.5"] LAT
      = some ("%!d(float64=05)-30.00", 0) ∧
    getGPSValue goFloat (orderOnly [LON] [DEGREE]) ["l", "-5.5"] LON
      = some ("%!d(float64=005)-30.00", 0) ∧
    '-' ∈ "%!d(float64=05)-30.00".data ∧
    (goFloat.ParseFloat "-5.5").map
        (fun x => goFloat.fmtF 5 2 (goFloat.mul (goFloat.sub x (goFloat.truncate x)) goFloat.c60))
      = some "-30.00" ∧
    ∀ (F R : Type) (L : FloatLib F) (dev : devPattern R) (m : List String) (key : Int)
      (v : String) (x : F), (key = LAT ∨ key = LON) → captured dev m key = some v →
      dev.Units[orderIndex dev.Order key]? = some DEGREE → L.ParseFloat v = some x →
      getGPSValue L dev m key
        = some ("%!d(float64=" ++ L.fmtV (if key = LON then 3 else 2) (L.Abs (L.truncate x))
            ++ ")" ++ L.fmtF 5 2 (L.mul (L.sub x (L.truncate x)) L.c60), 0) := by
  refine ⟨by decide!, by decide!, by decide, by decide!, ?_⟩
  · intro F R L dev m key v x hk hc hu hx
    rw [getGPSValue_degree L dev m key hk v hc hu, hx]
    rfl

/-! ## C15: silent degradation and the read of `Units` -/

/-- C15, as stated, fails: with `Order` `[LON]` and no `Units`, a captured LON whose text does
not parse is not handed back; the call fails on `dev.Units[0]` before the text is parsed. -/
theorem C15_degradation_counterexample :
    captured (orderOnly [LON] []) ["l", "east"] LON = some "east" ∧
    (goFloat.ParseFloat "east").isNone = true ∧
    getGPSValue goFloat (orderOnly [LON] []) ["l", "east"] LON = none := by
  decide!

/-- C15 (amended): a captured SPEED whose text does not parse is handed back unchanged,
whatever `Units` is; a captured LAT or LON at a position where `Units` has an entry is handed
back unchanged when its text does not parse, and whatever its text when the entry is DEGMIN;
a captured LAT or LON at a position beyond the end of `Units` makes `getGPSValue` fail with
an out-of-range access, whatever its text. -/
theorem C15_silent_degradation :
    (∀ (F R : Type) (L : FloatLib F) (dev : devPattern R) (m : List String) (key : Int)
      (v : String) (u : Int), (key = LAT ∨ key = LON) → captured dev m key = some v →
      dev.Units[orderIndex dev.Order key]? = some u → L.ParseFloat v = none →
      getGPSValue L dev m key = some (v, 0)) ∧
    (∀ (F R : Type) (L : FloatLib F) (dev : devPattern R) (m : List String) (v : String),
      captured dev m SPEED = some v → L.ParseFloat v = none →
      getGPSValue L dev m SPEED = some (v, 0)) ∧
    (∀ (F R : Type) (L : FloatLib F) (dev : devPattern R) (m : List String) (key : Int)
      (v : String), (key = LAT ∨ key = LON) → captured dev m key = some v →
      dev.Units[orderIndex dev.Order key]? = some DEGMIN →
      getGPSValue L dev m key = some (v, 0)) ∧
    (∀ (F R : Type) (L : FloatLib F) (dev : devPattern R) (m : List String) (key : Int)
      (v : String), (key = LAT ∨ key = LON) → captured dev m key = some v →
      dev.Units.length ≤ orderIndex dev.Order key →
      getGPSValue L dev m key = none) ∧
    getGPSValue goFloat (orderOnly [LAT] [DEGREE]) ["l", "5x.2"] LAT = some ("5x.2", 0) ∧
    getGPSValue goFloat (orderOnly [LON] [DEGREE]) ["l", "east"] LON = some ("east", 0) ∧
    getGPSValue goFloat (orderOnly [SPEED] [KMPERH]) ["l", "fast"] SPEED = some ("fast", 0) ∧
    getGPSValue goFloat (orderOnly [SPEED] []) ["l", "fast"] SPEED = some ("fast", 0) ∧
    getGPSValue goFloat (orderOnly [LAT] [DEGMIN]) ["l", "-5.5 N"] LAT = some ("-5.5 N", 0) ∧
    getGPSValue goFloat (orderOnly [LAT] []) ["l", "5x.2"] LAT = none := by
  refine ⟨?_, ?_, ?_, ?_, by decide!, by decide!, by decide!, by decide!, by decide!,
    by decide!⟩
  · intro F R L dev m key v u hk hc hu hp
    have h1 : ¬ (key = TIME ∨ key = DATE) := by rcases hk with h | h <;> rw [h] <;> decide
    have h2 : ¬ (key = ACTIVE) := by rcases hk with h | h <;> rw [h] <;> decide
    rw [getGPSValue_found L dev m key v hc]
    simp only [h1, h2, hk, if_false, if_true, hu, hp, ite_self]
  · intro F R L dev m v hc hp
    rw [getGPSValue_found L dev m SPEED v hc]
    simp [hp, SPEED, TIME, DATE, ACTIVE, LAT, LON]
  · intro F R L dev m key v hk hc hu
    have h1 : ¬ (key = TIME ∨ key = DATE) := by rcases hk with h | h <;> rw [h] <;> decide
    have h2 : ¬ (key = ACTIVE) := by rcases hk with h | h <;> rw [h] <;> decide
    rw [getGPSValue_found L dev m key v hc]
    simp only [h1, h2, hk, if_false, if_true, hu]
  · intro F R L dev m key v hk hc hu
    rw [getGPSValue_none_iff]
    left
    exact ⟨hk, by rw [hc]; rfl, hu⟩

/-! ## C17: what `analyseHTTPResponse` takes as success -/

/-- C17 on the code: the lines `abc OKAY` and `abc OK rejected` are taken as success with
the answer `device OK`: the response pattern has no anchor at its end, so the text after
`OK` is not looked at. -/
theorem C17_success_on_code :
    analyseHTTPResponse "abc OKAY" = ("device OK", none) ∧
    analyseHTTPResponse "abc OK rejected" = ("device OK", none) ∧
    regexpHTTPResponse.FindStringSubmatch "abc OKAY" = ["abc OK", "OK"] := by
  decide!


/-! ## C18: only data messages produce a query -/

/-- The result of `filter_gps_device` when device `i` is the first to accept the line and
`k` its first kind to do so. -/
theorem filter_at_index {F R : Type} (X : RegexpLib R) (L : FloatLib F)
    (devs : List (devPattern R)) (msg : String) (i : Nat) (dev : devPattern R) (k : Kind)
    (hc : compiles X devs) (hi : devs[i]? = some dev)
    (ha : accepts X (dev.pat k) msg)
    (hk : ∀ k2 : Kind, k2.rank < k.rank → ¬ accepts X (dev.pat k2) msg)
    (hpre : ∀ (j : Nat) (d : devPattern R), j < i → devs[j]? = some d →
      ∀ k2 : Kind, ¬ accepts X (d.pat k2) msg) :
    filter_gps_device X L devs msg = resultAt L dev k (groupsOf X (dev.pat k) msg) := by
  obtain ⟨hlt, hget⟩ := List.getElem?_eq_some.mp hi
  have hsplit : devs = devs.take i ++ dev :: devs.drop (i + 1) := by
    rw [← hget, ← List.drop_eq_getElem_cons hlt, List.take_append_drop]
  have hlen : (devs.take i).length = i := by
    rw [List.length_take]; omega
  have hp : ∀ d ∈ devs.take i, ∀ k2 : Kind, ¬ accepts X (d.pat k2) msg := by
    intro d hd k2
    obtain ⟨j, hj, hdj⟩ := List.getElem_of_mem hd
    have hj2 : j < i := by rw [hlen] at hj; exact hj
    apply hpre j d hj2
    rw [List.getElem_take] at hdj
    rw [← hdj]
    exact List.getElem?_eq_getElem (by omega)
  have hc2 : compiles X (devs.take i ++ dev :: devs.drop (i + 1)) := by rw [← hsplit]; exact hc
  have := filter_first_accept X L msg (devs.take i) dev (devs.drop (i + 1)) k hc2 hp hk ha
  rw [← hsplit] at this
  exact this

/-- C18: over a device list whose non-empty patterns all have a matcher, when the accepted
kind (the first kind of the first device that accepts the line) is Login or Heartbeat,
`filter_gps_device` returns that kind's `Resp`, an empty query and a `nil` error; when it is
Gps_data, it returns that kind's `Resp` with the query and error of `createGPRMCQuery` on
the accepted device and the groups of its match (and panics if that call does). -/
theorem C18_only_data_builds_query {F R : Type} (X : RegexpLib R) (L : FloatLib F)
    (devs : List (devPattern R)) (msg : String) (i : Nat) (dev : devPattern R) (k : Kind)
    (hc : compiles X devs) (hi : devs[i]? = some dev)
    (ha : accepts X (dev.pat k) msg)
    (hk : ∀ k2 : Kind, k2.rank < k.rank → ¬ accepts X (dev.pat k2) msg)
    (hpre : ∀ (j : Nat) (d : devPattern R), j < i → devs[j]? = some d →
      ∀ k2 : Kind, ¬ accepts X (d.pat k2) msg) :
    (k = Kind.Login → filter_gps_device X L devs msg = some (dev.Login.Resp, "", none)) ∧
    (k = Kind.Heartbeat →
      filter_gps_device X L devs msg = some (dev.Heartbeat.Resp, "", none)) ∧
    (k = Kind.Gps_data →
      (∀ q e, createGPRMCQuery L dev (groupsOf X dev.Gps_data msg) = some (q, e) →
        filter_gps_device X L devs msg = some (dev.Gps_data.Resp, q, e)) ∧
      (createGPRMCQuery L dev (groupsOf X dev.Gps_data msg) = none →
        filter_gps_device X L devs msg = none)) := by
  have h := filter_at_index X L devs msg i dev k hc hi ha hk hpre
  refine ⟨?_, ?_, ?_⟩
  · intro e; subst e; rw [h]; rfl
  · intro e; subst e; rw [h]; rfl
  · intro e; subst e
    rw [h]
    constructor
    · intro q e hq
      simp only [resultAt, devPattern.pat, hq, Option.map_some']
    · intro hq
      simp only [resultAt, devPattern.pat, hq, Option.map_none']

theorem compiles_secondDev : compiles goRegexp [secondDev] := by
  intro dev hd k
  simp only [List.mem_singleton] at hd
  subst hd
  cases k <;> decide!

/-- C18 at a device that accepts the line `ab` as data: the query is the one
`createGPRMCQuery` builds from the groups `ab`, `a`, `b`. -/
theorem C18_only_data_builds_query_witness :
    compiles goRegexp [secondDev] ∧
    accepts goRegexp (secondDev.pat Kind.Gps_data) "ab" ∧
    groupsOf goRegexp secondDev.Gps_data "ab" = ["ab", "a", "b"] ∧
    createGPRMCQuery goFloat secondDev ["ab", "a", "b"]
      = some ("acc=0.0&alt=0.0&id=a&gprmc=$GPRMC,b,0.0,W,A*11", none) ∧
    filter_gps_device goRegexp goFloat [secondDev] "ab"
      = some ("", "acc=0.0&alt=0.0&id=a&gprmc=$GPRMC,b,0.0,W,A*11", none) :=
  ⟨compiles_secondDev, by decide!, by decide!, by decide!,
    ((C18_only_data_builds_query goRegexp goFloat [secondDev] "ab" 0 secondDev Kind.Gps_data
      compiles_secondDev rfl (by decide!)
      (fun k2 h => by cases k2 <;> first | decide! | exact absurd h (by decide))
      (fun j d h => absurd h (Nat.not_lt_zero j))).2.2 rfl).1
      "acc=0.0&alt=0.0&id=a&gprmc=$GPRMC,b,0.0,W,A*11" none (by decide!)⟩


/-! ## C16: shape of the query -/

/-- A non-empty sentence starts with the header `$GPRMC`. -/
theorem buildSentence_head {F R : Type} (L : FloatLib F) (dev : devPattern R)
    (m : List String) (s : String) (h : buildSentence L dev m = some s) (hne : s ≠ "") :
    ∃ rest : String, s = "$GPRMC" ++ rest := by
  unfold buildSentence at h
  by_cases hg : isGPRMC dev.Order = true
  · simp only [hg, if_true, getGPSValue_GPRMC] at h
    by_cases hl : len ((captured dev m GPRMC).getD "0.0") > 0
    · simp only [hl, if_true, Option.some.injEq] at h
      refine ⟨"," ++ (captured dev m GPRMC).getD "0.0" ++ ",0.0,W", ?_⟩
      rw [← h]; apply String.ext; simp
    · simp only [hl, if_false, Option.some.injEq] at h
      exact absurd h.symm hne
  · simp only [hg, Bool.false_eq_true, if_false] at h
    rw [gprmcOrder, assemble] at h
    simp only [if_true] at h
    obtain ⟨t, ht, _⟩ := assemble_plain L dev m _ (by decide) _ s h
    exact ⟨t, by rw [ht, empty_append]⟩

/-- The sentence is empty only in passthrough mode with an empty extracted GPRMC value. -/
theorem buildSentence_empty_iff {F R : Type} (L : FloatLib F) (dev : devPattern R)
    (m : List String) :
    buildSentence L dev m = some "" ↔
      isGPRMC dev.Order = true ∧ auxValue L dev m GPRMC = "" := by
  have haux : auxValue L dev m GPRMC = (captured dev m GPRMC).getD "0.0" := by
    simp [auxValue, getGPSValue_GPRMC]
  rw [haux]
  unfold buildSentence
  by_cases hg : isGPRMC dev.Order = true
  · simp only [hg, if_true, getGPSValue_GPRMC, true_and]
    by_cases hl : len ((captured dev m GPRMC).getD "0.0") > 0
    · have hne := (len_pos_iff _).mp hl
      simp only [hl, if_true, Option.some.injEq, hne, iff_false]
      intro e
      have := congrArg String.data e
      simp at this
    · have he : (captured dev m GPRMC).getD "0.0" = "" := by
        by_contra hne
        exact hl ((len_pos_iff _).mpr hne)
      rw [he] at hl ⊢
      simp only [hl, if_false]
  · simp only [hg, Bool.false_eq_true, if_false, false_and, iff_false]
    intro h
    rw [gprmcOrder, assemble] at h
    simp only [if_true] at h
    obtain ⟨t, ht, _⟩ := assemble_plain L dev m _ (by decide) _ "" h
    have := congrArg String.data ht
    simp at this

theorem upperhex_isUpperHex : ∀ n < 16, isUpperHex (upperhex n) = true := by
  decide

theorem Sprintf_02X_digits (cs : Nat) :
    ∃ h1 h2 : Char, Sprintf_02X cs = String.mk [h1, h2] ∧ isUpperHex h1 = true ∧
      isUpperHex h2 = true := by
  refine ⟨upperhex (cs % 256 / 16), upperhex (cs % 16), rfl, ?_, ?_⟩
  · exact upperhex_isUpperHex _ (by omega)
  · exact upperhex_isUpperHex _ (by omega)

/-- The loop of the assembled mode panics exactly when one of its calls of `getGPSValue`
does. -/
theorem assemble_none_iff {F R : Type} (L : FloatLib F) (dev : devPattern R) (m : List String)
    (ks : List Int) (q : String) :
    assemble L dev m ks q = none ↔
      ∃ k ∈ ks, k ≠ HEAD ∧ k ≠ MAGN ∧ getGPSValue L dev m k = none := by
  induction ks generalizing q with
  | nil => simp [assemble]
  | cons k rest ih =>
    rw [assemble]
    by_cases h1 : k = HEAD
    · simp only [h1, if_true, ih, List.mem_cons, exists_eq_or_imp, ne_eq, not_true_eq_false,
        false_and, false_or]
    · by_cases h2 : k = MAGN
      · subst h2
        have h3 : ¬ (MAGN = HEAD) := by decide
        simp only [h3, if_true, if_false, ih, List.mem_cons, exists_eq_or_imp, ne_eq,
          not_true_eq_false, false_and, and_false, false_or]
      · simp only [h1, h2, if_false, List.mem_cons, exists_eq_or_imp, ne_eq, not_false_eq_true,
          true_and]
        cases hg : getGPSValue L dev m k with
        | none => simp
        | some v => simp only [ih]; simp

/-- The call `createGPRMCQuery` panics exactly when it assembles the sentence and a captured
LAT or LON, or a captured SPEED whose text parses, stands beyond the end of `Units`. -/
theorem createGPRMCQuery_none_iff {F R : Type} (L : FloatLib F) (dev : devPattern R)
    (m : List String) :
    createGPRMCQuery L dev m = none ↔
      2 ≤ m.length ∧ isGPRMC dev.Order = false ∧
        (unitsShort dev m LAT ∨ unitsShort dev m LON ∨
          (unitsShort dev m SPEED ∧
            ∃ v, captured dev m SPEED = some v ∧ (L.ParseFloat v).isSome)) := by
  rw [createGPRMCQuery_eq]
  by_cases h2 : m.length < 2
  · simp only [h2, if_true]
    constructor
    · intro h; simp at h
    · intro h; omega
  · have h2b : 2 ≤ m.length := by omega
    simp only [h2, if_false, h2b, true_and]
    have hb : buildSentence L dev m = none ↔ (isGPRMC dev.Order = false ∧
        (unitsShort dev m LAT ∨ unitsShort dev m LON ∨
          (unitsShort dev m SPEED ∧
            ∃ v, captured dev m SPEED = some v ∧ (L.ParseFloat v).isSome))) := by
      unfold buildSentence
      by_cases hg : isGPRMC dev.Order = true
      · simp [hg, getGPSValue_GPRMC]
      · have hg2 : isGPRMC dev.Order = false := by simpa using hg
        simp only [hg2, Bool.false_eq_true, if_false, true_and]
        rw [assemble_none_iff]
        constructor
        · rintro ⟨k, hk, _, _, hn⟩
          rw [getGPSValue_none_iff] at hn
          rcases hn with ⟨_, hs⟩ | ⟨_, hs, hv⟩ | ⟨_, _, hs⟩ | ⟨_, _, hs⟩
          · rename_i hkk
            rcases hkk with e | e
            · subst e; exact Or.inl hs
            · subst e; exact Or.inr (Or.inl hs)
          · exact Or.inr (Or.inr ⟨hs, hv⟩)
          · exact Or.inl hs
          · exact Or.inr (Or.inl hs)
        · rintro (hs | hs | ⟨hs, hv⟩)
          · exact ⟨LAT, by decide, by decide, by decide,
              (getGPSValue_none_iff L dev m LAT).mpr (Or.inl ⟨Or.inl rfl, hs⟩)⟩
          · exact ⟨LON, by decide, by decide, by decide,
              (getGPSValue_none_iff L dev m LON).mpr (Or.inl ⟨Or.inr rfl, hs⟩)⟩
          · exact ⟨SPEED, by decide, by decide, by decide,
              (getGPSValue_none_iff L dev m SPEED).mpr (Or.inr (Or.inl ⟨rfl, hs, hv⟩))⟩
    rw [← hb]
    cases hs : buildSentence L dev m with
    | none => simp
    | some s =>
      by_cases hne : s ≠ ""
      · simp [hne]
      · simp [hne]

/-- C16, as stated, fails: with `Order` `[LAT]`, no `Units` and a captured latitude,
`createGPRMCQuery` returns neither the empty string nor a query; it fails on
`dev.Units[0]`. -/
theorem C16_shape_counterexample :
    createGPRMCQuery goFloat (orderOnly [LAT] []) ["l", "5130.5"] = none := by
  decide!

/-- C16 (amended): `createGPRMCQuery` fails with an out-of-range access exactly when the
capture list has at least 2 elements, `Order` has no GPRMC, and a captured LAT or LON, or a
captured SPEED whose text parses, stands at a position beyond the end of `Units`.  In every
other case it returns a query with a `nil` error, and a returned query is either empty or
holds `gprmc=$GPRMC` and ends with `*` and two upper-case hexadecimal digits; it is empty
exactly when the capture list has fewer than 2 elements or the device is in passthrough mode
and the extracted GPRMC value is empty. -/
theorem C16_query_shape {F R : Type} (L : FloatLib F) (dev : devPattern R)
    (m : List String) :
    (createGPRMCQuery L dev m = none ↔
      2 ≤ m.length ∧ isGPRMC dev.Order = false ∧
        (unitsShort dev m LAT ∨ unitsShort dev m LON ∨
          (unitsShort dev m SPEED ∧
            ∃ v, captured dev m SPEED = some v ∧ (L.ParseFloat v).isSome))) ∧
    (¬ (2 ≤ m.length ∧ isGPRMC dev.Order = false ∧
        (unitsShort dev m LAT ∨ unitsShort dev m LON ∨
          (unitsShort dev m SPEED ∧
            ∃ v, captured dev m SPEED = some v ∧ (L.ParseFloat v).isSome))) →
      ∃ q, createGPRMCQuery L dev m = some (q, none)) ∧
    (∀ q e, createGPRMCQuery L dev m = some (q, e) →
      e = none ∧
      (q = "" ∨ ∃ (pre rest : String) (h1 h2 : Char),
        q = pre ++ "gprmc=$GPRMC" ++ rest ++ "*" ++ String.mk [h1, h2] ∧
        isUpperHex h1 = true ∧ isUpperHex h2 = true)) ∧
    (createGPRMCQuery L dev m = some ("", none) ↔
      m.length < 2 ∨ (isGPRMC dev.Order = true ∧ auxValue L dev m GPRMC = "")) ∧
    (isGPRMC dev.Order = true → ∃ q, createGPRMCQuery L dev m = some (q, none)) ∧
    (dev.Order.length ≤ dev.Units.length → ∃ q, createGPRMCQuery L dev m = some (q, none)) := by
  have hnone := createGPRMCQuery_none_iff L dev m
  have htot : ¬ (2 ≤ m.length ∧ isGPRMC dev.Order = false ∧
        (unitsShort dev m LAT ∨ unitsShort dev m LON ∨
          (unitsShort dev m SPEED ∧
            ∃ v, captured dev m SPEED = some v ∧ (L.ParseFloat v).isSome))) →
      ∃ q, createGPRMCQuery L dev m = some (q, none) := by
    intro hn
    cases hc : createGPRMCQuery L dev m with
    | none => exact absurd (hnone.mp hc) hn
    | some r =>
      obtain ⟨q, e⟩ := r
      have := createGPRMCQuery_err L dev m q e hc
      subst this
      exact ⟨q, rfl⟩
  refine ⟨hnone, htot, ?_, ?_, ?_, ?_⟩
  · intro q e h
    refine ⟨createGPRMCQuery_err L dev m q e h, ?_⟩
    by_cases hq : q = ""
    · exact Or.inl hq
    · right
      obtain ⟨s, hs, hne, _, hq2⟩ := createGPRMCQuery_nonempty L dev m q e h hq
      obtain ⟨rest, hrest⟩ := buildSentence_head L dev m s hs hne
      obtain ⟨h1, h2, hh, hx1, hx2⟩ := Sprintf_02X_digits (checksum (s ++ ",A*"))
      refine ⟨param "acc" (auxValue L dev m ACC) ++ param "alt" (auxValue L dev m ALT)
          ++ param "imei" (auxValue L dev m DEVIMEI) ++ param "id" (auxValue L dev m DEVID),
        rest ++ ",A", h1, h2, ?_, hx1, hx2⟩
      have e1 : "gprmc=$GPRMC" = "gprmc=" ++ "$GPRMC" := by decide
      have e2 : (",A*" : String) = ",A" ++ "*" := by decide
      rw [hq2, hh, e1]
      conv_lhs => rw [hrest, e2]
      simp only [String.append_assoc]
  · constructor
    · intro h
      rw [createGPRMCQuery_eq] at h
      by_cases h2 : m.length < 2
      · exact Or.inl h2
      · right
        simp only [h2, if_false] at h
        cases hs : buildSentence L dev m with
        | none => simp [hs] at h
        | some s =>
          simp only [hs] at h
          by_cases hne : s ≠ ""
          · rw [if_pos hne] at h
            exfalso
            simp only [Option.some.injEq, Prod.mk.injEq, and_true] at h
            have hd := congrArg String.length h
            simp only [String.length_append] at hd
            have : ("gprmc=" : String).length = 6 := by decide
            rw [this] at hd
            have : ("" : String).length = 0 := by decide
            rw [this] at hd
            omega
          · have he : s = "" := by
              by_contra hx
              exact hne hx
            rw [he] at hs
            exact (buildSentence_empty_iff L dev m).mp hs
    · intro h
      rw [createGPRMCQuery_eq]
      by_cases h2 : m.length < 2
      · simp [h2]
      · rcases h with h | h
        · exact absurd h h2
        · simp only [h2, if_false, (buildSentence_empty_iff L dev m).mpr h]
          simp
  · intro hg
    apply htot
    rintro ⟨_, hf, _⟩
    rw [hg] at hf
    exact absurd hf (by simp)
  · intro hU
    exact createGPRMCQuery_total L dev m (getGPSValue_total L dev m hU)

/-! ## C11: the fields of an assembled sentence -/

theorem splitComma_field (a b : List Char) (ha : ',' ∉ a) :
    splitComma (a ++ ',' :: b) = a :: splitComma b := by
  induction a with
  | nil => simp [splitComma]
  | cons c cs ih =>
    have hc : c ≠ ',' := fun e => ha (by simp [e])
    have hcs : ',' ∉ cs := fun e => ha (by simp [e])
    rw [List.cons_append, splitComma]
    simp only [hc, if_false, ih hcs]

theorem splitComma_last (a : List Char) (ha : ',' ∉ a) : splitComma a = [a] := by
  induction a with
  | nil => rfl
  | cons c cs ih =>
    have hc : c ≠ ',' := fun e => ha (by simp [e])
    have hcs : ',' ∉ cs := fun e => ha (by simp [e])
    rw [splitComma]
    simp only [hc, if_false, ih hcs]

theorem upperhex_ne_comma (n : Nat) : upperhex n ≠ ',' := by
  intro e
  by_cases hn : n < 16
  · have := upperhex_isUpperHex n hn
    rw [e] at this
    revert this
    decide
  · have h2 : 16 ≤ n := Nat.le_of_not_lt hn
    have h3 : upperhex n = '0' := by
      unfold upperhex
      rw [List.getD_eq_default]
      simpa using h2
    rw [h3] at e
    revert e
    decide

theorem shouldEscape_small_comma :
    ∀ b < 128, shouldEscape b = false → Char.ofNat b ≠ ',' := by
  decide!

theorem QueryEscape_no_comma (v : String) : ',' ∉ (url.QueryEscape v).data := by
  intro hc
  unfold url.QueryEscape at hc
  simp only [List.mem_flatMap] at hc
  obtain ⟨b, _, hb⟩ := hc
  unfold escapeByte at hb
  by_cases hs : shouldEscape b = true
  · simp only [hs, if_true] at hb
    by_cases h32 : b = 32
    · simp only [h32, if_true, List.mem_singleton] at hb
      revert hb; decide
    · simp only [h32, if_false, List.mem_cons, List.mem_singleton, List.mem_nil_iff,
        or_false] at hb
      rcases hb with h | h | h
      · revert h; decide
      · exact upperhex_ne_comma _ h.symm
      · exact upperhex_ne_comma _ h.symm
  · have hs2 : shouldEscape b = false := by simpa using hs
    have hb2 : b < 128 := by
      by_contra hge
      have := shouldEscape_large b (Nat.le_of_not_lt hge)
      rw [this] at hs2
      exact absurd hs2 (by simp)
    simp only [hs2, Bool.false_eq_true, if_false, List.mem_singleton] at hb
    exact shouldEscape_small_comma b hb2 hs2 hb.symm

theorem QueryEscape_empty : url.QueryEscape "" = "" := by
  decide

/-- The assembled mode adds one piece per slot, in order. -/
theorem assemble_pieces {F R : Type} (L : FloatLib F) (dev : devPattern R) (m : List String)
    (ks : List Int) (hk : HEAD ∉ ks) (q s : String) (h : assemble L dev m ks q = some s) :
    s = q ++ fieldsText L dev m ks := by
  induction ks generalizing q with
  | nil =>
    simp only [assemble, Option.some.injEq] at h
    rw [← h, fieldsText]
    apply String.ext; simp
  | cons k rest ih =>
    have hk1 : k ≠ HEAD := fun e => hk (by simp [e])
    have hk2 : HEAD ∉ rest := fun e => hk (by simp [e])
    rw [assemble] at h
    simp only [hk1, if_false] at h
    rw [fieldsText, piece]
    by_cases hm : k = MAGN
    · simp only [hm, if_true] at h ⊢
      rw [ih hk2 _ h, String.append_assoc]
    · simp only [hm, if_false] at h ⊢
      cases hg : getGPSValue L dev m k with
      | none => simp [hg] at h
      | some v =>
        simp only [hg] at h
        have hav : auxValue L dev m k = v.1 := by simp [auxValue, hg]
        rw [ih hk2 _ h, hav]
        by_cases hl : len v.1 > 0
        · simp only [hl, if_true, String.append_assoc]
        · have he : v.1 = "" := by
            by_contra hne
            exact hl ((len_pos_iff _).mpr hne)
          simp only [hl, if_false, he, QueryEscape_empty, String.append_assoc]
          apply String.ext; simp

/-- The fields of the sentence of a query returned in assembled mode. -/
theorem assembled_fields {F R : Type} (L : FloatLib F) (dev : devPattern R)
    (m : List String) (q : String) (e : Option String)
    (hO : isGPRMC dev.Order = false) (hm : 2 ≤ m.length)
    (h : createGPRMCQuery L dev m = some (q, e)) :
    ∃ S : String,
      q = param "acc" (auxValue L dev m ACC) ++ param "alt" (auxValue L dev m ALT)
          ++ param "imei" (auxValue L dev m DEVIMEI) ++ param "id" (auxValue L dev m DEVID)
          ++ "gprmc=" ++ S ++ "*" ++ Sprintf_02X (checksum (S ++ "*")) ∧
      '*' ∉ S.data ∧
      splitComma S.data =
        ["$GPRMC".data,
          (url.QueryEscape (auxValue L dev m TIME)).data,
          (url.QueryEscape (auxValue L dev m ACTIVE)).data,
          (url.QueryEscape (auxValue L dev m LAT)).data,
          (url.QueryEscape (auxValue L dev m NS)).data,
          (url.QueryEscape (auxValue L dev m LON)).data,
          (url.QueryEscape (auxValue L dev m EW)).data,
          (url.QueryEscape (auxValue L dev m SPEED)).data,
          (url.QueryEscape (auxValue L dev m ANGLE)).data,
          (url.QueryEscape (auxValue L dev m DATE)).data,
          "0.0".data, "W".data, "A".data] := by
  have hO2 : ¬ isGPRMC dev.Order = true := by rw [hO]; simp
  have hlen : ¬ m.length < 2 := by omega
  rw [createGPRMCQuery_eq] at h
  simp only [hlen, if_false] at h
  cases hs : buildSentence L dev m with
  | none => simp [hs] at h
  | some s =>
    simp only [hs] at h
    have hne : s ≠ "" := by
      intro he
      rw [he] at hs
      exact hO2 ((buildSentence_empty_iff L dev m).mp hs).1
    rw [if_pos hne] at h
    simp only [Option.some.injEq, Prod.mk.injEq] at h
    obtain ⟨b, hb, hp⟩ := buildSentence_shape L dev m s hs hne
    have hs2 := hs
    unfold buildSentence at hs2
    simp only [hO, Bool.false_eq_true, if_false] at hs2
    rw [gprmcOrder, assemble] at hs2
    simp only [if_true] at hs2
    have hpieces := assemble_pieces L dev m _ (by decide) _ s hs2
    have e2 : (",A*" : String) = ",A" ++ "*" := by decide
    refine ⟨s ++ ",A", ?_, ?_, ?_⟩
    · rw [← h.1, e2]
      simp only [String.append_assoc]
    · intro hc
      rw [hb] at hc
      simp only [String.data_append, List.mem_append] at hc
      rcases hc with (hc | hc) | hc
      · revert hc; decide
      · have := hp hO _ hc
        revert this; decide
      · revert hc; decide
    · have n1 : ¬ TIME = MAGN := by decide
      have n2 : ¬ ACTIVE = MAGN := by decide
      have n3 : ¬ LAT = MAGN := by decide
      have n4 : ¬ NS = MAGN := by decide
      have n5 : ¬ LON = MAGN := by decide
      have n6 : ¬ EW = MAGN := by decide
      have n7 : ¬ SPEED = MAGN := by decide
      have n8 : ¬ ANGLE = MAGN := by decide
      have n9 : ¬ DATE = MAGN := by decide
      have hd : (s ++ ",A").data =
          "$GPRMC".data ++ ',' :: ((url.QueryEscape (auxValue L dev m TIME)).data
          ++ ',' :: ((url.QueryEscape (auxValue L dev m ACTIVE)).data
          ++ ',' :: ((url.QueryEscape (auxValue L dev m LAT)).data
          ++ ',' :: ((url.QueryEscape (auxValue L dev m NS)).data
          ++ ',' :: ((url.QueryEscape (auxValue L dev m LON)).data
          ++ ',' :: ((url.QueryEscape (auxValue L dev m EW)).data
          ++ ',' :: ((url.QueryEscape (auxValue L dev m SPEED)).data
          ++ ',' :: ((url.QueryEscape (auxValue L dev m ANGLE)).data
          ++ ',' :: ((url.QueryEscape (auxValue L dev m DATE)).data
          ++ ',' :: ("0.0".data ++ ',' :: ("W".data ++ ',' :: "A".data))))))))))) := by
        rw [hpieces]
        simp only [fieldsText, piece, n1, n2, n3, n4, n5, n6, n7, n8, n9, if_false, if_true,
          String.data_append, List.append_assoc, List.singleton_append,
          List.cons_append, List.nil_append, List.append_nil]
      rw [hd]
      rw [splitComma_field _ _ (by decide),
        splitComma_field _ _ (QueryEscape_no_comma _),
        splitComma_field _ _ (QueryEscape_no_comma _),
        splitComma_field _ _ (QueryEscape_no_comma _),
        splitComma_field _ _ (QueryEscape_no_comma _),
        splitComma_field _ _ (QueryEscape_no_comma _),
        splitComma_field _ _ (QueryEscape_no_comma _),
        splitComma_field _ _ (QueryEscape_no_comma _),
        splitComma_field _ _ (QueryEscape_no_comma _),
        splitComma_field _ _ (QueryEscape_no_comma _),
        splitComma_field _ _ (by decide),
        splitComma_field _ _ (by decide),
        splitComma_last _ (by decide)]

/-- C11: in assembled mode (`Order` without GPRMC) with at least 2 captures, the sentence
of a returned query, taken up to its `*`, splits at its commas into exactly 13 fields:
`$GPRMC`, the URL-escaped extracted values of TIME, ACTIVE, LAT, NS, LON, EW, SPEED, ANGLE
and DATE in this order (an empty value gives an empty field), then `0.0`, `W` and `A`.  A
query is returned whenever `Units` is at least as long as `Order`. -/
theorem C11_assembled_fields {F R : Type} (L : FloatLib F) (dev : devPattern R)
    (m : List String) (hO : isGPRMC dev.Order = false) (hm : 2 ≤ m.length) :
    (∀ (q : String) (e : Option String), createGPRMCQuery L dev m = some (q, e) →
      ∃ S : String,
        q = param "acc" (auxValue L dev m ACC) ++ param "alt" (auxValue L dev m ALT)
            ++ param "imei" (auxValue L dev m DEVIMEI) ++ param "id" (auxValue L dev m DEVID)
            ++ "gprmc=" ++ S ++ "*" ++ Sprintf_02X (checksum (S ++ "*")) ∧
        '*' ∉ S.data ∧
        splitComma S.data =
          ["$GPRMC".data,
            (url.QueryEscape (auxValue L dev m TIME)).data,
            (url.QueryEscape (auxValue L dev m ACTIVE)).data,
            (url.QueryEscape (auxValue L dev m LAT)).data,
            (url.QueryEscape (auxValue L dev m NS)).data,
            (url.QueryEscape (auxValue L dev m LON)).data,
            (url.QueryEscape (auxValue L dev m EW)).data,
            (url.QueryEscape (auxValue L dev m SPEED)).data,
            (url.QueryEscape (auxValue L dev m ANGLE)).data,
            (url.QueryEscape (auxValue L dev m DATE)).data,
            "0.0".data, "W".data, "A".data]) ∧
    (dev.Order.length ≤ dev.Units.length → ∃ q, createGPRMCQuery L dev m = some (q, none)) :=
  ⟨fun q e h => assembled_fields L dev m q e hO hm h,
    fun hU => createGPRMCQuery_total L dev m (getGPSValue_total L dev m hU)⟩

/-- C11 at a device that captures TIME, LAT and a SPEED text with a comma: the comma is
escaped, so the sentence still has its 13 fields. -/
theorem C11_assembled_fields_witness :
    isGPRMC (orderOnly [TIME, LAT, SPEED] [NONE, DEGMIN, KNOTS]).Order = false ∧
    2 ≤ ["l", "120000", "5130.5", "a,b"].length ∧
    createGPRMCQuery goFloat (orderOnly [TIME, LAT, SPEED] [NONE, DEGMIN, KNOTS])
        ["l", "120000", "5130.5", "a,b"]
      = some ("acc=0.0&alt=0.0&gprmc=$GPRMC,120000,A,5130.5,N,0.0,E,a%2Cb,0.0,0.0,0.0,W,A*5F",
          none) ∧
    splitComma "$GPRMC,120000,A,5130.5,N,0.0,E,a%2Cb,0.0,0.0,0.0,W,A".data
      = ["$GPRMC".data, "120000".data, "A".data, "5130.5".data, "N".data, "0.0".data,
          "E".data, "a%2Cb".data, "0.0".data, "0.0".data, "0.0".data, "W".data, "A".data] ∧
    ∃ S : String,
      "acc=0.0&alt=0.0&gprmc=$GPRMC,120000,A,5130.5,N,0.0,E,a%2Cb,0.0,0.0,0.0,W,A*5F"
        = param "acc" (auxValue goFloat (orderOnly [TIME, LAT, SPEED] [NONE, DEGMIN, KNOTS])
              ["l", "120000", "5130.5", "a,b"] ACC)
          ++ param "alt" (auxValue goFloat (orderOnly [TIME, LAT, SPEED] [NONE, DEGMIN, KNOTS])
              ["l", "120000", "5130.5", "a,b"] ALT)
          ++ param "imei" (auxValue goFloat (orderOnly [TIME, LAT, SPEED] [NONE, DEGMIN, KNOTS])
              ["l", "120000", "5130.5", "a,b"] DEVIMEI)
          ++ param "id" (auxValue goFloat (orderOnly [TIME, LAT, SPEED] [NONE, DEGMIN, KNOTS])
              ["l", "120000", "5130.5", "a,b"] DEVID)
          ++ "gprmc=" ++ S ++ "*" ++ Sprintf_02X (checksum (S ++ "*")) ∧
      '*' ∉ S.data ∧
      splitComma S.data =
        ["$GPRMC".data,
          (url.QueryEscape (auxValue goFloat (orderOnly [TIME, LAT, SPEED] [NONE, DEGMIN, KNOTS])
            ["l", "120000", "5130.5", "a,b"] TIME)).data,
          (url.QueryEscape (auxValue goFloat (orderOnly [TIME, LAT, SPEED] [NONE, DEGMIN, KNOTS])
            ["l", "120000", "5130.5", "a,b"] ACTIVE)).data,
          (url.QueryEscape (auxValue goFloat (orderOnly [TIME, LAT, SPEED] [NONE, DEGMIN, KNOTS])
            ["l", "120000", "5130.5", "a,b"] LAT)).data,
          (url.QueryEscape (auxValue goFloat (orderOnly [TIME, LAT, SPEED] [NONE, DEGMIN, KNOTS])
            ["l", "120000", "5130.5", "a,b"] NS)).data,
          (url.QueryEscape (auxValue goFloat (orderOnly [TIME, LAT, SPEED] [NONE, DEGMIN, KNOTS])
            ["l", "120000", "5130.5", "a,b"] LON)).data,
          (url.QueryEscape (auxValue goFloat (orderOnly [TIME, LAT, SPEED] [NONE, DEGMIN, KNOTS])
            ["l", "120000", "5130.5", "a,b"] EW)).data,
          (url.QueryEscape (auxValue goFloat (orderOnly [TIME, LAT, SPEED] [NONE, DEGMIN, KNOTS])
            ["l", "120000", "5130.5", "a,b"] SPEED)).data,
          (url.QueryEscape (auxValue goFloat (orderOnly [TIME, LAT, SPEED] [NONE, DEGMIN, KNOTS])
            ["l", "120000", "5130.5", "a,b"] ANGLE)).data,
          (url.QueryEscape (auxValue goFloat (orderOnly [TIME, LAT, SPEED] [NONE, DEGMIN, KNOTS])
            ["l", "120000", "5130.5", "a,b"] DATE)).data,
          "0.0".data, "W".data, "A".data] :=
  ⟨by decide, by decide, by decide!, by decide!,
    (C11_assembled_fields goFloat (orderOnly [TIME, LAT, SPEED] [NONE, DEGMIN, KNOTS])
      ["l", "120000", "5130.5", "a,b"] (by decide) (by decide)).1 _ none (by decide!)⟩

/-! ## The exact text of a non-empty query -/

theorem upperhex_escaped (n : Nat) : escapedChar (upperhex n) = true := by
  by_cases h : n < 16
  · interval_cases n <;> decide
  · have h2 : 16 ≤ n := Nat.le_of_not_lt h
    have : upperhex n = '0' := by
      unfold upperhex
      rw [List.getD_eq_default]
      simpa using h2
    rw [this]; decide

theorem shouldEscape_small_escaped :
    ∀ b < 128, shouldEscape b = false → escapedChar (Char.ofNat b) = true := by
  decide!

/-- The text `url.QueryEscape` hands back holds letters, digits and `-_.~%+` only. -/
theorem QueryEscape_escaped (v : String) :
    ∀ c ∈ (url.QueryEscape v).data, escapedChar c = true := by
  intro c hc
  unfold url.QueryEscape at hc
  simp only [List.mem_flatMap] at hc
  obtain ⟨b, _, hb⟩ := hc
  unfold escapeByte at hb
  by_cases hs : shouldEscape b = true
  · simp only [hs, if_true] at hb
    by_cases h32 : b = 32
    · simp only [h32, if_true, List.mem_singleton] at hb
      subst hb; decide
    · simp only [h32, if_false, List.mem_cons, List.mem_singleton, List.mem_nil_iff,
        or_false] at hb
      rcases hb with h | h | h
      · subst h; decide
      · subst h; exact upperhex_escaped _
      · subst h; exact upperhex_escaped _
  · have hs2 : shouldEscape b = false := by simpa using hs
    have hb2 : b < 128 := by
      by_contra hge
      have := shouldEscape_large b (Nat.le_of_not_lt hge)
      rw [this] at hs2
      exact absurd hs2 (by simp)
    simp only [hs2, Bool.false_eq_true, if_false, List.mem_singleton] at hb
    subst hb
    exact shouldEscape_small_escaped b hb2 hs2

theorem escapedChar_ne (c : Char) (h : escapedChar c = true) : c ≠ '&' ∧ c ≠ '=' := by
  constructor <;> (intro e; rw [e] at h; revert h; decide)

/-- The pieces of an assembled sentence hold neither `&` nor `=`. -/
theorem fieldsText_chars {F R : Type} (L : FloatLib F) (dev : devPattern R) (m : List String)
    (ks : List Int) : ∀ c ∈ (fieldsText L dev m ks).data, c ≠ '&' ∧ c ≠ '=' := by
  induction ks with
  | nil => intro c hc; simp [fieldsText] at hc
  | cons k rest ih =>
    intro c hc
    rw [fieldsText, piece] at hc
    simp only [String.data_append, List.mem_append] at hc
    rcases hc with hc | hc
    · by_cases hm : k = MAGN
      · simp only [hm, if_true] at hc
        revert c; decide
      · simp only [hm, if_false, String.data_append, List.mem_append] at hc
        rcases hc with hc | hc
        · revert c; decide
        · exact escapedChar_ne c (QueryEscape_escaped _ c hc)
    · exact ih c hc

/-- A non-empty sentence built by `createGPRMCQuery` is the text `sentenceText`. -/
theorem buildSentence_text {F R : Type} (L : FloatLib F) (dev : devPattern R)
    (m : List String) (s : String) (h : buildSentence L dev m = some s) (hne : s ≠ "") :
    s = sentenceText L dev m := by
  unfold buildSentence at h
  unfold sentenceText
  by_cases hg : isGPRMC dev.Order = true
  · simp only [hg, if_true, getGPSValue_GPRMC] at h ⊢
    by_cases hl : len ((captured dev m GPRMC).getD "0.0") > 0
    · simp only [hl, if_true, Option.some.injEq] at h
      rw [← h, empty_append]
    · simp only [hl, if_false, Option.some.injEq] at h
      exact absurd h.symm hne
  · simp only [hg, Bool.false_eq_true, if_false] at h ⊢
    rw [gprmcOrder, assemble] at h
    simp only [if_true] at h
    rw [assemble_pieces L dev m _ (by decide) _ s h, empty_append]

/-- A non-empty query, character by character. -/
theorem createGPRMCQuery_exact {F R : Type} (L : FloatLib F) (dev : devPattern R)
    (m : List String) (q : String) (e : Option String)
    (h : createGPRMCQuery L dev m = some (q, e)) (hq : q ≠ "") :
    q = param "acc" (auxValue L dev m ACC) ++ param "alt" (auxValue L dev m ALT)
        ++ param "imei" (auxValue L dev m DEVIMEI) ++ param "id" (auxValue L dev m DEVID)
        ++ "gprmc=" ++ sentenceText L dev m ++ ",A*"
        ++ Sprintf_02X (checksum (sentenceText L dev m ++ ",A*")) := by
  obtain ⟨s, hs, hne, _, hq2⟩ := createGPRMCQuery_nonempty L dev m q e h hq
  rw [hq2, buildSentence_text L dev m s hs hne]
  simp only [String.append_assoc]

/-- The sentence of the assembled mode with `,A*` and the checksum digits holds neither `&`
nor `=`. -/
theorem assembled_chars {F R : Type} (L : FloatLib F) (dev : devPattern R) (m : List String)
    (hg : isGPRMC dev.Order = false) :
    ∀ c ∈ (sentenceText L dev m ++ ",A*"
        ++ Sprintf_02X (checksum (sentenceText L dev m ++ ",A*"))).data, c ≠ '&' ∧ c ≠ '=' := by
  intro c hc
  simp only [String.data_append, List.mem_append] at hc
  rcases hc with (hc | hc) | hc
  · unfold sentenceText at hc
    simp only [hg, Bool.false_eq_true, if_false, String.data_append, List.mem_append] at hc
    rcases hc with hc | hc
    · revert c; decide
    · exact fieldsText_chars L dev m _ c hc
  · revert c; decide
  · simp only [Sprintf_02X, List.mem_cons, List.mem_singleton, List.mem_nil_iff, or_false] at hc
    rcases hc with hc | hc <;> (subst hc; exact escapedChar_ne _ (upperhex_escaped _))

theorem param_eq_empty_iff (name v : String) : param name v = "" ↔ v = "" := by
  unfold param
  by_cases hl : len v > 0
  · have hne := (len_pos_iff v).mp hl
    simp only [hl, if_true, hne, iff_false]
    intro e
    have := congrArg String.length e
    simp only [String.length_append] at this
    have h1 : ("&" : String).length = 1 := by decide
    have h0 : ("" : String).length = 0 := by decide
    rw [h1, h0] at this
    omega
  · have he : v = "" := by
      by_contra hne
      exact hl ((len_pos_iff v).mpr hne)
    rw [if_neg hl]
    simp [he]

/-! ## C1: order of the query parameters -/

/-- C1, as stated, fails: with DEVID, DEVIMEI, ALT and ACC all captured the query reads
`acc=`, `alt=`, `imei=`, `id=`, `gprmc=` from left to right, so `acc=` and `alt=` come before
`imei=` and `id=`. -/
theorem C1_order_counterexample :
    createGPRMCQuery goFloat (orderOnly [DEVID, DEVIMEI, ALT, ACC, GPRMC] [])
        ["l", "7", "9", "1.5", "2.5", "a"]
      = some ("acc=2.5&alt=1.5&imei=9&id=7&gprmc=$GPRMC,a,0.0,W,A*12", none) := by
  decide!

/-- C1 (amended): a non-empty query of `createGPRMCQuery` is, from left to right, the
parameters `acc`, `alt`, `imei`, `id` (each only when its extracted value is not empty, as
`name=escaped value&`, the escaped value holding letters, digits and `-_.~%+` only), then
`gprmc=`, the sentence, `,A*` and the checksum digits, and nothing else.  In assembled mode
the text after `gprmc=` holds neither `&` nor `=`, so `gprmc` is the last parameter; in
passthrough mode the sentence is `$GPRMC,`, the captured GPRMC text copied as it is, and
`,0.0,W`, so what the captured text holds of `&` and `=` stands in the query after
`gprmc=`. -/
theorem C1_parameter_order {F R : Type} (L : FloatLib F) (dev : devPattern R)
    (m : List String) (q : String) (e : Option String)
    (h : createGPRMCQuery L dev m = some (q, e)) (hq : q ≠ "") :
    q = param "acc" (auxValue L dev m ACC) ++ param "alt" (auxValue L dev m ALT)
        ++ param "imei" (auxValue L dev m DEVIMEI) ++ param "id" (auxValue L dev m DEVID)
        ++ "gprmc=" ++ sentenceText L dev m ++ ",A*"
        ++ Sprintf_02X (checksum (sentenceText L dev m ++ ",A*")) ∧
    (∀ key, ∀ c ∈ (url.QueryEscape (auxValue L dev m key)).data, escapedChar c = true) ∧
    (isGPRMC dev.Order = false →
      ∀ c ∈ (sentenceText L dev m ++ ",A*"
          ++ Sprintf_02X (checksum (sentenceText L dev m ++ ",A*"))).data,
        c ≠ '&' ∧ c ≠ '=') ∧
    (isGPRMC dev.Order = true →
      sentenceText L dev m = "$GPRMC," ++ (captured dev m GPRMC).getD "0.0" ++ ",0.0,W") := by
  refine ⟨createGPRMCQuery_exact L dev m q e h hq, fun key => QueryEscape_escaped _,
    assembled_chars L dev m, ?_⟩
  intro hg
  simp [sentenceText, hg]

/-- C1 (amended), at a passthrough device whose captured GPRMC text holds `&acc=9&alt=3`:
the four parameters come first, and the captured text follows `gprmc=` as it is. -/
theorem C1_parameter_order_witness :
    createGPRMCQuery goFloat (orderOnly [DEVID, GPRMC] []) ["l", "7", "x&acc=9&alt=3"]
      = some ("acc=0.0&alt=0.0&id=7&gprmc=$GPRMC,x&acc=9&alt=3,0.0,W,A*19", none) ∧
    "acc=0.0&alt=0.0&id=7&gprmc=$GPRMC,x&acc=9&alt=3,0.0,W,A*19"
      = param "acc" (auxValue goFloat (orderOnly [DEVID, GPRMC] [])
            ["l", "7", "x&acc=9&alt=3"] ACC)
        ++ param "alt" (auxValue goFloat (orderOnly [DEVID, GPRMC] [])
            ["l", "7", "x&acc=9&alt=3"] ALT)
        ++ param "imei" (auxValue goFloat (orderOnly [DEVID, GPRMC] [])
            ["l", "7", "x&acc=9&alt=3"] DEVIMEI)
        ++ param "id" (auxValue goFloat (orderOnly [DEVID, GPRMC] [])
            ["l", "7", "x&acc=9&alt=3"] DEVID)
        ++ "gprmc=" ++ sentenceText goFloat (orderOnly [DEVID, GPRMC] [])
            ["l", "7", "x&acc=9&alt=3"] ++ ",A*"
        ++ Sprintf_02X (checksum (sentenceText goFloat (orderOnly [DEVID, GPRMC] [])
            ["l", "7", "x&acc=9&alt=3"] ++ ",A*")) ∧
    sentenceText goFloat (orderOnly [DEVID, GPRMC] []) ["l", "7", "x&acc=9&alt=3"]
      = "$GPRMC,x&acc=9&alt=3,0.0,W" :=
  ⟨by decide!,
    (C1_parameter_order goFloat (orderOnly [DEVID, GPRMC] []) ["l", "7", "x&acc=9&alt=3"]
      "acc=0.0&alt=0.0&id=7&gprmc=$GPRMC,x&acc=9&alt=3,0.0,W,A*19" none (by decide!)
      (by decide)).1,
    by decide!⟩

/-! ## C10: presence of the optional parameters -/

/-- C10, as stated, fails: a device whose `Order` has neither ALT nor ACC still gets
`acc=0.0&alt=0.0&` in front of its query. -/
theorem C10_optional_counterexample :
    captured (orderOnly [GPRMC] []) ["l", "a"] ALT = none ∧
    captured (orderOnly [GPRMC] []) ["l", "a"] ACC = none ∧
    createGPRMCQuery goFloat (orderOnly [GPRMC] []) ["l", "a"]
      = some ("acc=0.0&alt=0.0&gprmc=$GPRMC,a,0.0,W,A*12", none) := by
  decide!

/-- C10 (amended): in a non-empty query the text in front of `gprmc=` is exactly the
parameters `acc`, `alt`, `imei`, `id`.  The parameter `id` (`imei`) carries the captured
DEVID (DEVIMEI) and is there if and only if that capture exists and is not empty; the
parameter `alt` (`acc`) carries the captured ALT (ACC), else the default `0.0`, so it is
missing if and only if ALT (ACC) is captured as the empty string, and reads `alt=0.0&`
(`acc=0.0&`) when not captured.  The values are URL-escaped.  After `gprmc=` an assembled
sentence holds neither `&` nor `=`, so the query has no other parameter; in passthrough mode
the captured GPRMC text is copied as it is, so a text such as `&id=5` inside it stands in the
query without DEVID being captured. -/
theorem C10_optional_parameters {F R : Type} (L : FloatLib F) (dev : devPattern R)
    (m : List String) (q : String) (e : Option String)
    (h : createGPRMCQuery L dev m = some (q, e)) (hq : q ≠ "") :
    q = param "acc" ((captured dev m ACC).getD "0.0")
        ++ param "alt" ((captured dev m ALT).getD "0.0")
        ++ param "imei" ((captured dev m DEVIMEI).getD "")
        ++ param "id" ((captured dev m DEVID).getD "")
        ++ "gprmc=" ++ sentenceText L dev m ++ ",A*"
        ++ Sprintf_02X (checksum (sentenceText L dev m ++ ",A*")) ∧
    (param "id" ((captured dev m DEVID).getD "") ≠ "" ↔
      ∃ v, captured dev m DEVID = some v ∧ v ≠ "") ∧
    (param "imei" ((captured dev m DEVIMEI).getD "") ≠ "" ↔
      ∃ v, captured dev m DEVIMEI = some v ∧ v ≠ "") ∧
    (param "alt" ((captured dev m ALT).getD "0.0") = "" ↔ captured dev m ALT = some "") ∧
    (param "acc" ((captured dev m ACC).getD "0.0") = "" ↔ captured dev m ACC = some "") ∧
    (captured dev m ALT = none → param "alt" ((captured dev m ALT).getD "0.0") = "alt=0.0&") ∧
    (captured dev m ACC = none → param "acc" ((captured dev m ACC).getD "0.0") = "acc=0.0&") ∧
    (∀ v : String, ∀ c ∈ (url.QueryEscape v).data, escapedChar c = true) ∧
    (isGPRMC dev.Order = false →
      ∀ c ∈ (sentenceText L dev m ++ ",A*"
          ++ Sprintf_02X (checksum (sentenceText L dev m ++ ",A*"))).data,
        c ≠ '&' ∧ c ≠ '=') ∧
    (isGPRMC dev.Order = true →
      sentenceText L dev m = "$GPRMC," ++ (captured dev m GPRMC).getD "0.0" ++ ",0.0,W") := by
  have hopt : ∀ (name : String) (key : Int),
      (param name ((captured dev m key).getD "") ≠ "" ↔
        ∃ v, captured dev m key = some v ∧ v ≠ "") := by
    intro name key
    rw [ne_eq, param_eq_empty_iff]
    cases hc : captured dev m key with
    | none => simp
    | some v => simp
  have hdef : ∀ (name : String) (key : Int),
      (param name ((captured dev m key).getD "0.0") = "" ↔ captured dev m key = some "") := by
    intro name key
    rw [param_eq_empty_iff]
    cases hc : captured dev m key with
    | none =>
      simp only [Option.getD_none, reduceCtorEq, iff_false]
      decide
    | some v => simp
  refine ⟨?_, hopt "id" DEVID, hopt "imei" DEVIMEI, hdef "alt" ALT, hdef "acc" ACC, ?_, ?_,
    QueryEscape_escaped, assembled_chars L dev m, ?_⟩
  · have := createGPRMCQuery_exact L dev m q e h hq
    rw [auxValue_ACC, auxValue_ALT, auxValue_DEVIMEI, auxValue_DEVID] at this
    exact this
  · intro hc
    rw [hc]
    decide
  · intro hc
    rw [hc]
    decide
  · intro hg
    simp [sentenceText, hg]

/-- C10 (amended), at a passthrough device that captures neither DEVID, ALT nor ACC and
whose captured GPRMC text holds `&id=5`: the parameters in front of `gprmc=` are the two
defaults, and the captured text follows `gprmc=` as it is. -/
theorem C10_optional_parameters_witness :
    createGPRMCQuery goFloat (orderOnly [GPRMC] []) ["l", "x&id=5"]
      = some ("acc=0.0&alt=0.0&gprmc=$GPRMC,x&id=5,0.0,W,A*28", none) ∧
    captured (orderOnly [GPRMC] []) ["l", "x&id=5"] DEVID = none ∧
    "acc=0.0&alt=0.0&gprmc=$GPRMC,x&id=5,0.0,W,A*28"
      = param "acc" ((captured (orderOnly [GPRMC] []) ["l", "x&id=5"] ACC).getD "0.0")
        ++ param "alt" ((captured (orderOnly [GPRMC] []) ["l", "x&id=5"] ALT).getD "0.0")
        ++ param "imei" ((captured (orderOnly [GPRMC] []) ["l", "x&id=5"] DEVIMEI).getD "")
        ++ param "id" ((captured (orderOnly [GPRMC] []) ["l", "x&id=5"] DEVID).getD "")
        ++ "gprmc=" ++ sentenceText goFloat (orderOnly [GPRMC] []) ["l", "x&id=5"] ++ ",A*"
        ++ Sprintf_02X (checksum (sentenceText goFloat (orderOnly [GPRMC] [])
            ["l", "x&id=5"] ++ ",A*")) ∧
    param "id" ((captured (orderOnly [GPRMC] []) ["l", "x&id=5"] DEVID).getD "") = "" ∧
    sentenceText goFloat (orderOnly [GPRMC] []) ["l", "x&id=5"] = "$GPRMC,x&id=5,0.0,W" :=
  ⟨by decide!, by decide,
    (C10_optional_parameters goFloat (orderOnly [GPRMC] []) ["l", "x&id=5"]
      "acc=0.0&alt=0.0&gprmc=$GPRMC,x&id=5,0.0,W,A*28" none (by decide!) (by decide)).1,
    by decide, by decide!⟩

end GpsUtils
